import Mathlib

/-!
# Verification of the Seek & Enter core of CyberForge

Shallow embedding of the scan/exploit pipeline:
  * `backend/scanners/nmap_scanner.py`   (`_expand_hosts`, `_parse_port_range`,
    `_scan_port_socket`)
  * `backend/scanners/seek_scanner.py`   (`_seek_with_sockets`, `_probe_host`,
    `_parse_vulners_output`)
  * `backend/scanners/enter_engine.py`   (`EXPLOIT_REGISTRY`, `select_exploit`,
    `run_exploit` and the five exploit modules)
  * `backend/services/seek_enter_service.py` (`SeekEnterService.run_enter`)

Modelling conventions:
  * Python strings are modelled as Lean `String`/`List Char`; the helpers
    below (`pyStrip`, `pySplitlines`, `pyIntL`, ...) reproduce the Python
    `str.strip`, `str.splitlines`, `int(...)` behaviour used by the code
    (restricted to the ASCII whitespace forms the pipeline can meet).
  * Network behaviour is an explicit "world" parameter: each socket or
    subprocess interaction is driven by a world field describing the
    outcome the network/environment produced at that step.
  * Machine floats (`ServiceVuln.cvss`) are kept as the raw token string:
    no claim depends on the parsed numeric value, only on the control flow
    around it, which is unchanged.
  * Event timestamps (wall clock reads) are dropped from `EnterEvent`; all
    claims concern event kinds, order and message texts only.
-/

/-! ## Python string primitives -/

/-- ASCII whitespace stripped by Python `str.strip()` (the pipeline only
meets ASCII input). -/
def isPySpace (c : Char) : Bool :=
  c = ' ' || c = '\t' || c = '\n' || c = '\r' || c = '\x0b' || c = '\x0c'

/-- Python `str.strip()` on a character list. -/
def pyStrip (l : List Char) : List Char :=
  ((l.dropWhile isPySpace).reverse.dropWhile isPySpace).reverse

/-- Python `str.strip()` on a `String`. -/
def pyStripStr (s : String) : String := String.mk (pyStrip s.data)

/-- Split a character list at every occurrence of `c` (Python
`str.split(sep)` with a one-character separator). -/
def splitOnChar (c : Char) : List Char → List (List Char)
  | [] => [[]]
  | x :: xs =>
    if x = c then [] :: splitOnChar c xs
    else
      match splitOnChar c xs with
      | [] => [[x]]
      | y :: ys => (x :: y) :: ys

/-- Split at the first occurrence of `c`: Python `str.split(sep, 1)` /
`str.partition(sep)` (the part before the first `c`, the part after it;
the second component is `[]` when `c` does not occur). -/
def splitFirst (c : Char) : List Char → List Char × List Char
  | [] => ([], [])
  | x :: xs =>
    if x = c then ([], xs)
    else
      let p := splitFirst c xs
      (x :: p.1, p.2)

/-- Python substring containment on character lists (`sub in s`). -/
def listContains (sub : List Char) : List Char → Bool
  | [] => sub.isEmpty
  | c :: cs => sub.isPrefixOf (c :: cs) || listContains sub cs

/-- Python `sub in s` for strings. -/
def strContains (s sub : String) : Bool := listContains sub.data s.data

/-- Python `str.startswith(pre)`. -/
def pyStartsWith (s pre : String) : Bool := pre.data.isPrefixOf s.data

/-- Python `str.lower()` (the pipeline only lowercases ASCII text). -/
def pyLower (s : String) : String := String.mk (s.data.map Char.toLower)

/-- Python `str.splitlines()` restricted to `'\n'` separators: no empty
trailing element, and the empty string yields no lines. -/
def pySplitlines (s : String) : List String :=
  if s.data.isEmpty then []
  else if s.data.getLast? = some '\n' then
    ((splitOnChar '\n' s.data).dropLast).map String.mk
  else (splitOnChar '\n' s.data).map String.mk

/-- Worker for `pySplitWs`: `cur` is the current word, reversed. -/
def pySplitWsGo : List Char → List Char → List (List Char)
  | cur, [] => if cur = [] then [] else [cur.reverse]
  | cur, c :: cs =>
    if isPySpace c then
      if cur = [] then pySplitWsGo [] cs else cur.reverse :: pySplitWsGo [] cs
    else pySplitWsGo (c :: cur) cs

/-- Python `str.split()` (split on whitespace runs, no empty parts),
on character lists. -/
def pySplitWs (l : List Char) : List (List Char) := pySplitWsGo [] l

/-! ## Decimal digits: Python `int(...)` and `str(int)` -/

/-- The decimal digit character for `n % 10`-style values. -/
def digitChar (n : Nat) : Char :=
  match n with
  | 0 => '0' | 1 => '1' | 2 => '2' | 3 => '3' | 4 => '4'
  | 5 => '5' | 6 => '6' | 7 => '7' | 8 => '8' | _ => '9'

/-- Numeric value of a decimal digit character. -/
def digitVal (c : Char) : Nat := c.toNat - 48

/-- Value of a decimal digit list, most significant first. -/
def charsNum (l : List Char) : Nat := l.foldl (fun a c => a * 10 + digitVal c) 0

/-- Fuel-driven general decimal printer (used only above 99999, where no
pipeline value lives; kept so `natChars` is total and faithful). -/
def natCharsRec : Nat → Nat → List Char
  | 0, _ => []
  | fuel + 1, n =>
    if n < 10 then [digitChar n]
    else natCharsRec fuel (n / 10) ++ [digitChar (n % 10)]

/-- Decimal representation of a natural number (Python `str(n)` /
f-string formatting of a nonnegative int).  Spelled out digit by digit
below 100000 so that concrete runs reduce inside the kernel; every value
the pipeline prints (octets, ports, prefix lengths) is below 65536. -/
def natChars (n : Nat) : List Char :=
  if n < 10 then [digitChar n]
  else if n < 100 then [digitChar (n / 10), digitChar (n % 10)]
  else if n < 1000 then [digitChar (n / 100), digitChar (n / 10 % 10), digitChar (n % 10)]
  else if n < 10000 then
    [digitChar (n / 1000), digitChar (n / 100 % 10), digitChar (n / 10 % 10),
     digitChar (n % 10)]
  else if n < 100000 then
    [digitChar (n / 10000), digitChar (n / 1000 % 10), digitChar (n / 100 % 10),
     digitChar (n / 10 % 10), digitChar (n % 10)]
  else natCharsRec n n

/-- Python `str(n)` as a `String`. -/
def natStr (n : Nat) : String := String.mk (natChars n)

/-- Python `str(i)` for ints. -/
def intStr (i : Int) : String :=
  if i < 0 then String.mk ('-' :: natChars i.natAbs) else natStr i.toNat

/-- Helper for `pyDigits`: consume further digit characters, allowing a
single `'_'` between digits (Python numeric-literal underscores). -/
def pyDigitsGo (acc : Nat) : List Char → Option Nat
  | [] => some acc
  | '_' :: c :: cs =>
    if c.isDigit then pyDigitsGo (acc * 10 + digitVal c) cs else none
  | ['_'] => none
  | c :: cs =>
    if c.isDigit then pyDigitsGo (acc * 10 + digitVal c) cs else none

/-- The digit-sequence part of Python `int(str)`: nonempty decimal digits
with optional single underscores between digits. -/
def pyDigits : List Char → Option Nat
  | [] => none
  | c :: cs => if c.isDigit then pyDigitsGo (digitVal c) cs else none

/-- Python `int(str)`: strip whitespace, optional sign, decimal digits.
`none` models the `ValueError` raised on malformed input. -/
def pyIntL (l : List Char) : Option Int :=
  match pyStrip l with
  | '+' :: rest => (pyDigits rest).map (fun n => Int.ofNat n)
  | '-' :: rest => (pyDigits rest).map (fun n => -(Int.ofNat n))
  | rest => (pyDigits rest).map (fun n => Int.ofNat n)

/-! ## `_parse_port_range` (nmap_scanner.py lines 82-98) -/

/-- Python `range(st, stop)` over ints, as a list. -/
def portRangeList (st stop : Int) : List Int :=
  (List.range (stop - st).toNat).map (fun i => st + Int.ofNat i)

/-- Insertion step of the insertion sort used to model Python `sorted`. -/
def insertLe {α : Type} (le : α → α → Bool) (x : α) : List α → List α
  | [] => [x]
  | y :: ys => if le x y then x :: y :: ys else y :: insertLe le x ys

/-- Insertion sort (structural, so that concrete runs reduce in the
kernel); on a total order it agrees with Python `sorted`. -/
def sortLe {α : Type} (le : α → α → Bool) (l : List α) : List α :=
  l.foldr (insertLe le) []

/-- Python `sorted(set(l))` for int lists. -/
def sortedDedupInt (l : List Int) : List Int :=
  (sortLe (fun a b => decide (a ≤ b)) l).dedup

/-- The token loop of `_parse_port_range`, accumulating `result`.
`none` models an uncaught `ValueError` from `int(...)`. -/
def parsePortTokens : List (List Char) → List Int → Option (List Int)
  | [], acc => some acc
  | part :: rest, acc =>
    let p := pyStrip part
    if p.contains '-' then
      let pr := splitFirst '-' p
      match pyIntL pr.1, pyIntL pr.2 with
      | some st, some en =>
        parsePortTokens rest (acc ++ portRangeList st (min (en + 1) 65536))
      | _, _ => none
    else
      match pyIntL p with
      | some q =>
        if 1 ≤ q ∧ q ≤ 65535 then parsePortTokens rest (acc ++ [q])
        else parsePortTokens rest acc
      | none => none

/-- Model of `_parse_port_range(ports)`: split on commas, parse each token
(`a-b` ranges capped at 65535, plain ports filtered to 1..65535), return
the sorted deduplicated list.  `none` models the uncaught `ValueError`
raised on a malformed numeric token. -/
def parsePortRange (ports : String) : Option (List Int) :=
  (parsePortTokens (splitOnChar ',' ports.data) []).map sortedDedupInt

/-! ## C3 lemmas -/

theorem mem_of_mem_pyStrip {c : Char} {l : List Char} (h : c ∈ pyStrip l) : c ∈ l := by
  unfold pyStrip at h
  have h2 := (List.dropWhile_sublist isPySpace).subset (List.mem_reverse.mp h)
  exact (List.dropWhile_sublist isPySpace).subset (List.mem_reverse.mp h2)

theorem splitFirst_fst_not_mem (c : Char) (l : List Char) : c ∉ (splitFirst c l).1 := by
  induction l with
  | nil => simp [splitFirst]
  | cons x xs ih =>
    simp only [splitFirst]
    split
    · simp
    · intro hmem
      rcases List.mem_cons.mp hmem with h | h
      · simp_all
      · exact ih h

theorem pyIntL_nonneg {l : List Char} {n : Int} (hm : '-' ∉ l) (h : pyIntL l = some n) :
    0 ≤ n := by
  have hm2 : '-' ∉ pyStrip l := fun hx => hm (mem_of_mem_pyStrip hx)
  unfold pyIntL at h
  split at h
  · obtain ⟨k, _, rfl⟩ := Option.map_eq_some'.mp h
    simp only [Int.ofNat_eq_coe]
    omega
  · rename_i heq
    rw [heq] at hm2
    simp at hm2
  · obtain ⟨k, _, rfl⟩ := Option.map_eq_some'.mp h
    simp only [Int.ofNat_eq_coe]
    omega

theorem mem_portRangeList {st stop x : Int} (h : x ∈ portRangeList st stop) :
    st ≤ x ∧ x < stop := by
  unfold portRangeList at h
  obtain ⟨i, hi, rfl⟩ := List.mem_map.mp h
  have hi2 := List.mem_range.mp hi
  simp only [Int.ofNat_eq_coe]
  omega

theorem mem_insertLe {α : Type} {le : α → α → Bool} {x a : α} :
    ∀ {l : List α}, a ∈ insertLe le x l ↔ a = x ∨ a ∈ l := by
  intro l
  induction l with
  | nil => simp [insertLe]
  | cons y ys ih =>
    simp only [insertLe]
    split
    · simp [List.mem_cons]
    · simp only [List.mem_cons, ih]
      tauto

theorem mem_sortLe {α : Type} {le : α → α → Bool} {a : α} :
    ∀ {l : List α}, a ∈ sortLe le l ↔ a ∈ l := by
  intro l
  induction l with
  | nil => simp [sortLe]
  | cons y ys ih =>
    simp only [sortLe, List.foldr_cons] at *
    rw [mem_insertLe, ih]
    simp [List.mem_cons]

theorem mem_sortedDedupInt {l : List Int} {x : Int} : x ∈ sortedDedupInt l ↔ x ∈ l := by
  unfold sortedDedupInt
  rw [List.mem_dedup, mem_sortLe]

theorem parsePortTokens_bounds :
    ∀ (parts : List (List Char)) (acc out : List Int),
      parsePortTokens parts acc = some out →
      (∀ p ∈ acc, 0 ≤ p ∧ p ≤ 65535) →
      ∀ p ∈ out, 0 ≤ p ∧ p ≤ 65535 := by
  intro parts
  induction parts with
  | nil =>
    intro acc out h hacc
    unfold parsePortTokens at h
    cases h
    exact hacc
  | cons part rest ih =>
    intro acc out h hacc
    unfold parsePortTokens at h
    dsimp only at h
    split at h
    · split at h
      · rename_i st en hst hen
        refine ih _ _ h ?_
        intro q hq
        rcases List.mem_append.mp hq with hq | hq
        · exact hacc q hq
        · have hb := mem_portRangeList hq
          have h0 : 0 ≤ st :=
            pyIntL_nonneg (splitFirst_fst_not_mem '-' (pyStrip part)) hst
          have hmin : min (en + 1) 65536 ≤ (65536 : Int) := min_le_right _ _
          omega
      · exact absurd h (by simp)
    · split at h
      · split at h
        · rename_i q hq hcond
          refine ih _ _ h ?_
          intro p hp
          rcases List.mem_append.mp hp with hp | hp
          · exact hacc p hp
          · simp only [List.mem_singleton] at hp
            subst hp
            omega
        · exact ih _ _ h hacc
      · exact absurd h (by simp)

/-! ## C3 claim -/

/-- C3, counterexample: the port-spec `"0-5"` parses successfully and the
returned set contains the out-of-range port 0 — the range branch of
`_parse_port_range` never filters the start of a range against the lower
bound 1, so the claim "every port number in the returned set lies in
[1, 65535]" is false. -/
theorem c3_counterexample :
    parsePortRange "0-5" = some [0, 1, 2, 3, 4, 5] ∧
      (0 : Int) ∈ [(0 : Int), 1, 2, 3, 4, 5] ∧ ¬ (1 ≤ (0 : Int)) := by
  decide

/-- C3 (amended): Port-spec parsing is total and bounded below only by 0:
for every input string, `_parse_port_range` either rejects the input (the
`ValueError` raised by `int(...)` on a malformed numeric token, modelled
as `none`) or returns a list all of whose ports lie in [0, 65535]; a range
token may contribute port 0 (when its start is 0), but no port is ever
negative and none exceeds 65535 (no silent wrap-around). -/
theorem c3_port_range_bounds (ports : String) (l : List Int)
    (h : parsePortRange ports = some l) : ∀ p ∈ l, 0 ≤ p ∧ p ≤ 65535 := by
  unfold parsePortRange at h
  obtain ⟨l0, h0, rfl⟩ := Option.map_eq_some'.mp h
  intro p hp
  exact parsePortTokens_bounds _ _ _ h0 (by simp) p (mem_sortedDedupInt.mp hp)

/-- C3 witness: `c3_port_range_bounds` applied to the concrete spec
`"22,80"`. -/
theorem c3_port_range_bounds_witness :
    (0 : Int) ≤ 22 ∧ (22 : Int) ≤ 65535 :=
  c3_port_range_bounds "22,80" [22, 80] (by decide) 22 (by decide)

/-! ## Decimal formatting lemmas (for the IPv4 round trip) -/

theorem digitChar_isDigit (n : Nat) : (digitChar n).isDigit = true := by
  unfold digitChar
  split <;> decide

theorem digitVal_digitChar {n : Nat} (h : n < 10) : digitVal (digitChar n) = n := by
  unfold digitChar
  split <;> (simp_all [digitVal]; try omega)

theorem digitChar_eq_zero {n : Nat} (h : n < 10) : digitChar n = '0' ↔ n = 0 := by
  unfold digitChar
  split <;> (simp_all; try omega)

theorem natChars_small {n : Nat} (h : n < 100000) :
    natChars n =
      if n < 10 then [digitChar n]
      else if n < 100 then [digitChar (n / 10), digitChar (n % 10)]
      else if n < 1000 then [digitChar (n / 100), digitChar (n / 10 % 10), digitChar (n % 10)]
      else if n < 10000 then
        [digitChar (n / 1000), digitChar (n / 100 % 10), digitChar (n / 10 % 10),
         digitChar (n % 10)]
      else
        [digitChar (n / 10000), digitChar (n / 1000 % 10), digitChar (n / 100 % 10),
         digitChar (n / 10 % 10), digitChar (n % 10)] := by
  unfold natChars
  split_ifs <;> first | rfl | omega

theorem charsNum_natChars {n : Nat} (h : n < 100000) : charsNum (natChars n) = n := by
  rw [natChars_small h]
  split_ifs with h1 h2 h3 h4
  · simp [charsNum, List.foldl, digitVal_digitChar (by omega : n < 10)]
  · simp [charsNum, List.foldl, digitVal_digitChar (by omega : n / 10 < 10),
      digitVal_digitChar (by omega : n % 10 < 10)]
    omega
  · simp [charsNum, List.foldl, digitVal_digitChar (by omega : n / 100 < 10),
      digitVal_digitChar (by omega : n / 10 % 10 < 10),
      digitVal_digitChar (by omega : n % 10 < 10)]
    omega
  · simp [charsNum, List.foldl, digitVal_digitChar (by omega : n / 1000 < 10),
      digitVal_digitChar (by omega : n / 100 % 10 < 10),
      digitVal_digitChar (by omega : n / 10 % 10 < 10),
      digitVal_digitChar (by omega : n % 10 < 10)]
    omega
  · simp [charsNum, List.foldl, digitVal_digitChar (by omega : n / 10000 < 10),
      digitVal_digitChar (by omega : n / 1000 % 10 < 10),
      digitVal_digitChar (by omega : n / 100 % 10 < 10),
      digitVal_digitChar (by omega : n / 10 % 10 < 10),
      digitVal_digitChar (by omega : n % 10 < 10)]
    omega

theorem natChars_all_digit {n : Nat} (h : n < 100000) :
    ∀ c ∈ natChars n, c.isDigit = true := by
  rw [natChars_small h]
  split_ifs <;> intro c hc <;> simp only [List.mem_cons, List.mem_singleton,
    List.not_mem_nil, or_false] at hc <;>
    rcases hc with rfl | rfl | rfl | rfl | rfl <;> exact digitChar_isDigit _

theorem natChars_ne_nil {n : Nat} (h : n < 100000) : natChars n ≠ [] := by
  rw [natChars_small h]
  split_ifs <;> simp

theorem natChars_length_le3 {n : Nat} (h : n ≤ 255) : (natChars n).length ≤ 3 := by
  rw [natChars_small (by omega)]
  split_ifs <;> simp <;> omega

theorem natChars_head_zero {n : Nat} (h : n < 100000)
    (hz : (natChars n).head? = some '0') : n = 0 := by
  rw [natChars_small h] at hz
  split_ifs at hz <;> simp only [List.head?_cons, Option.some.injEq] at hz
  · exact (digitChar_eq_zero (by omega)).mp hz
  all_goals {
    have := (digitChar_eq_zero (by omega)).mp hz
    omega
  }

/-! ## `_expand_hosts` (nmap_scanner.py lines 46-79)

The embedding models the IPv4 forms the code handles: a dotted-quad
single address, a dotted-quad CIDR block `A.B.C.D/p` (`ip_network` with
`strict=False`, so host bits are masked off), and the nmap last-octet
dash range `A.B.C.start-end`.  (`ipaddress` also accepts IPv6 and
netmask-style `A.B.C.D/M.M.M.M` forms; no claim exercises those.) -/

/-- Python `ipaddress` octet validation: 1-3 ASCII digits, no leading
zero (except `"0"` itself), value at most 255. -/
def goodOctet (cs : List Char) : Bool :=
  !cs.isEmpty && cs.all Char.isDigit && decide (cs.length ≤ 3) &&
    (!(cs.head? == some '0') || cs == ['0']) && decide (charsNum cs ≤ 255)

/-- Parse one dotted-quad octet. -/
def parseOctet (cs : List Char) : Option Nat :=
  if goodOctet cs then some (charsNum cs) else none

/-- Parse a dotted-quad IPv4 address into its 32-bit value
(`ipaddress.ip_address` for IPv4 strings). -/
def parseIPv4chars (l : List Char) : Option Nat :=
  match splitOnChar '.' l with
  | [a, b, c, d] =>
    match parseOctet a, parseOctet b, parseOctet c, parseOctet d with
    | some x, some y, some z, some w =>
      some (x * 16777216 + y * 65536 + z * 256 + w)
    | _, _, _, _ => none
  | _ => none

/-- Parse a prefix length: ASCII digits only (leading zeros allowed by
`ipaddress`), value at most 32. -/
def parsePrefixLen (cs : List Char) : Option Nat :=
  if !cs.isEmpty && cs.all Char.isDigit && decide (charsNum cs ≤ 32) then
    some (charsNum cs)
  else none

/-- Parse `A.B.C.D/p` into the masked network base and the prefix length
(`ipaddress.ip_network(..., strict=False)` for IPv4 `/p` strings). -/
def parseCIDRchars (l : List Char) : Option (Nat × Nat) :=
  match splitOnChar '/' l with
  | [addr, pl] =>
    match parseIPv4chars addr, parsePrefixLen pl with
    | some a, some p => some (a - a % 2 ^ (32 - p), p)
    | _, _ => none
  | _ => none

/-- Model of `network.num_addresses` for a /p IPv4 network. -/
def networkSize (p : Nat) : Nat := 2 ^ (32 - p)

/-- Model of `network.hosts()` for an IPv4 network: all addresses except network
and broadcast, except that /31 and /32 include every address. -/
def hostAddrs (base p : Nat) : List Nat :=
  if 31 ≤ p then (List.range (networkSize p)).map (fun i => base + i)
  else (List.range (networkSize p - 2)).map (fun i => base + 1 + i)

/-- The first three dotted octets of a 32-bit address
(Python `str(base).rsplit(".", 1)[0]`). -/
def ipFirst3Chars (a : Nat) : List Char :=
  natChars (a / 16777216 % 256) ++ '.' :: natChars (a / 65536 % 256) ++
    '.' :: natChars (a / 256 % 256)

/-- Dotted-quad rendering of a 32-bit address (`str(IPv4Address(a))`). -/
def ipChars (a : Nat) : List Char := ipFirst3Chars a ++ '.' :: natChars (a % 256)

/-- Dotted-quad rendering as a `String`. -/
def ipStr (a : Nat) : String := String.mk (ipChars a)

/-- Model of `_expand_hosts` after the initial `target.strip()`: single address,
else CIDR (capped at 65536 addresses), else `A.B.C.start-end` dash
range, else empty with a logged warning. -/
def expandHostsL (t : List Char) : List String :=
  match parseIPv4chars t with
  | some _ => [String.mk t]
  | none =>
    match parseCIDRchars t with
    | some (base, p) =>
      if networkSize p ≤ 65536 then (hostAddrs base p).map ipStr else []
    | none =>
      if t.contains '-' then
        let pr := splitFirst '-' t
        match parseIPv4chars (pyStrip pr.1), pyIntL pr.2 with
        | some a, some e =>
          if 0 ≤ e ∧ e ≤ 255 ∧ (Int.ofNat (a % 256)) ≤ e then
            (List.range (e.toNat + 1 - a % 256)).map
              (fun i => String.mk (ipFirst3Chars a ++ '.' :: natChars (a % 256 + i)))
          else []
        | _, _ => []
      else []

/-- Model of `_expand_hosts(target)` (nmap_scanner.py lines 46-79). -/
def expandHosts (target : String) : List String :=
  expandHostsL (pyStrip target.data)

/-- Claim-side characterisation of the usable host addresses of an IPv4
block: every address of the block except network and broadcast, which
are usable too when the prefix is /31 or /32. -/
def usableHost (base p n : Nat) : Prop :=
  base ≤ n ∧ n < base + networkSize p ∧
    (p ≤ 30 → n ≠ base ∧ n ≠ base + networkSize p - 1)

theorem splitOnChar_not_mem {c : Char} {l : List Char} (h : c ∉ l) :
    splitOnChar c l = [l] := by
  induction l with
  | nil => rfl
  | cons x xs ih =>
    simp only [List.mem_cons, not_or] at h
    simp only [splitOnChar]
    rw [if_neg (by exact fun he => h.1 (by rw [he])), ih h.2]

theorem splitOnChar_append {c : Char} {a : List Char} (b : List Char) (h : c ∉ a) :
    splitOnChar c (a ++ c :: b) = a :: splitOnChar c b := by
  induction a with
  | nil => simp [splitOnChar]
  | cons x xs ih =>
    simp only [List.mem_cons, not_or] at h
    simp only [List.cons_append, splitOnChar]
    rw [if_neg (fun he => h.1 he.symm)]
    simp only [List.append_eq]
    rw [ih h.2]

theorem natChars_not_mem {n : Nat} {c : Char} (h : n < 100000)
    (hc : c.isDigit = false) : c ∉ natChars n := by
  intro hmem
  have := natChars_all_digit h c hmem
  rw [hc] at this
  exact Bool.false_ne_true this

theorem parseOctet_natChars {n : Nat} (h : n ≤ 255) :
    parseOctet (natChars n) = some n := by
  have hne := natChars_ne_nil (n := n) (by omega)
  have hdig := natChars_all_digit (n := n) (by omega)
  have hlen := natChars_length_le3 h
  have hval : charsNum (natChars n) = n := charsNum_natChars (by omega)
  unfold parseOctet goodOctet
  rw [if_pos]
  · rw [hval]
  · simp only [Bool.and_eq_true, Bool.or_eq_true, Bool.not_eq_true', decide_eq_true_eq]
    refine ⟨⟨⟨⟨by simpa using hne, List.all_eq_true.mpr hdig⟩, hlen⟩, ?_⟩, by omega⟩
    by_cases hz : (natChars n).head? = some '0'
    · right
      have hn0 : n = 0 := natChars_head_zero (by omega) hz
      subst hn0
      rfl
    · left
      simpa using hz

theorem isPySpace_of_isDigit {c : Char} (h : c.isDigit = true) : isPySpace c = false := by
  by_contra hsp
  have hs : isPySpace c = true := by
    cases hb : isPySpace c
    · exact absurd hb hsp
    · rfl
  unfold isPySpace at hs
  simp only [Bool.or_eq_true, decide_eq_true_eq] at hs
  rcases hs with ((((h1 | h1) | h1) | h1) | h1) | h1 <;> subst h1 <;> simp_all

theorem ipChars_split (a : Nat) :
    splitOnChar '.' (ipChars a) =
      [natChars (a / 16777216 % 256), natChars (a / 65536 % 256),
       natChars (a / 256 % 256), natChars (a % 256)] := by
  unfold ipChars ipFirst3Chars
  have h1 := natChars_not_mem (n := a / 16777216 % 256) (by omega) (c := '.') (by decide)
  have h2 := natChars_not_mem (n := a / 65536 % 256) (by omega) (c := '.') (by decide)
  have h3 := natChars_not_mem (n := a / 256 % 256) (by omega) (c := '.') (by decide)
  have h4 := natChars_not_mem (n := a % 256) (by omega) (c := '.') (by decide)
  simp only [List.append_assoc, List.cons_append]
  rw [splitOnChar_append _ h1, splitOnChar_append _ h2, splitOnChar_append _ h3,
    splitOnChar_not_mem h4]

theorem parseIPv4_ipChars {a : Nat} (ha : a < 4294967296) :
    parseIPv4chars (ipChars a) = some a := by
  unfold parseIPv4chars
  rw [ipChars_split]
  dsimp only
  rw [parseOctet_natChars (by omega), parseOctet_natChars (by omega),
    parseOctet_natChars (by omega), parseOctet_natChars (by omega)]
  simp only [Option.some.injEq]
  omega

theorem ipChars_no_slash (a : Nat) : '/' ∉ ipChars a := by
  unfold ipChars ipFirst3Chars
  intro h
  simp only [List.append_assoc, List.cons_append, List.mem_append, List.mem_cons] at h
  rcases h with h | h | h | h | h | h | h
  · exact natChars_not_mem (by omega) (by decide) h
  · simp at h
  · exact natChars_not_mem (by omega) (by decide) h
  · simp at h
  · exact natChars_not_mem (by omega) (by decide) h
  · simp at h
  · exact natChars_not_mem (by omega) (by decide) h

theorem splitSlash {a p : Nat} (hp : p ≤ 32) :
    splitOnChar '/' (ipChars a ++ '/' :: natChars p) = [ipChars a, natChars p] := by
  rw [splitOnChar_append _ (ipChars_no_slash a),
    splitOnChar_not_mem (natChars_not_mem (by omega) (by decide))]

theorem parsePrefixLen_natChars {p : Nat} (hp : p ≤ 32) :
    parsePrefixLen (natChars p) = some p := by
  unfold parsePrefixLen
  rw [if_pos, charsNum_natChars (by omega)]
  simp only [Bool.and_eq_true, Bool.not_eq_true', decide_eq_true_eq]
  refine ⟨⟨by simpa using natChars_ne_nil (n := p) (by omega),
    List.all_eq_true.mpr (natChars_all_digit (by omega))⟩, ?_⟩
  rw [charsNum_natChars (by omega)]
  omega

theorem parseOctet_none_of_bad {cs : List Char} {c : Char} (hc : c ∈ cs)
    (hd : c.isDigit = false) : parseOctet cs = none := by
  unfold parseOctet goodOctet
  rw [if_neg]
  intro hcontra
  simp only [Bool.and_eq_true, List.all_eq_true] at hcontra
  have := hcontra.1.1.1.2 c hc
  rw [hd] at this
  exact Bool.false_ne_true this

theorem parseIPv4_cidrStr {a p : Nat} (hp : p ≤ 32) :
    parseIPv4chars (ipChars a ++ '/' :: natChars p) = none := by
  unfold parseIPv4chars
  have heq : ipChars a ++ '/' :: natChars p =
      natChars (a / 16777216 % 256) ++ '.' :: (natChars (a / 65536 % 256) ++
        '.' :: (natChars (a / 256 % 256) ++
          '.' :: (natChars (a % 256) ++ '/' :: natChars p))) := by
    unfold ipChars ipFirst3Chars
    simp [List.append_assoc, List.cons_append]
  rw [heq]
  have h1 := natChars_not_mem (n := a / 16777216 % 256) (by omega) (c := '.') (by decide)
  have h2 := natChars_not_mem (n := a / 65536 % 256) (by omega) (c := '.') (by decide)
  have h3 := natChars_not_mem (n := a / 256 % 256) (by omega) (c := '.') (by decide)
  have h4 : '.' ∉ natChars (a % 256) ++ '/' :: natChars p := by
    intro h
    simp only [List.mem_append, List.mem_cons] at h
    rcases h with h | h | h
    · exact natChars_not_mem (by omega) (by decide) h
    · simp at h
    · exact natChars_not_mem (by omega) (by decide) h
  rw [splitOnChar_append _ h1, splitOnChar_append _ h2, splitOnChar_append _ h3,
    splitOnChar_not_mem h4]
  dsimp only
  have hbad : parseOctet (natChars (a % 256) ++ '/' :: natChars p) = none :=
    parseOctet_none_of_bad (c := '/') (by simp) (by decide)
  rw [hbad]
  rcases parseOctet (natChars (a / 16777216 % 256)) with _ | x <;>
    rcases parseOctet (natChars (a / 65536 % 256)) with _ | y <;>
    rcases parseOctet (natChars (a / 256 % 256)) with _ | z <;> rfl

theorem parseCIDR_roundtrip {a p : Nat} (ha : a < 4294967296) (hp : p ≤ 32) :
    parseCIDRchars (ipChars a ++ '/' :: natChars p) =
      some (a - a % 2 ^ (32 - p), p) := by
  unfold parseCIDRchars
  rw [splitSlash hp]
  simp only
  rw [parseIPv4_ipChars ha, parsePrefixLen_natChars hp]

theorem dropWhile_eq_self_of_none {p : Char → Bool} {l : List Char}
    (h : ∀ c ∈ l, p c = false) : l.dropWhile p = l := by
  cases l with
  | nil => rfl
  | cons x xs =>
    rw [List.dropWhile_cons, if_neg]
    rw [h x (List.mem_cons_self x xs)]
    simp

theorem pyStrip_eq_self {l : List Char} (h : ∀ c ∈ l, isPySpace c = false) :
    pyStrip l = l := by
  unfold pyStrip
  rw [dropWhile_eq_self_of_none h,
    dropWhile_eq_self_of_none (fun c hc => h c (List.mem_reverse.mp hc)),
    List.reverse_reverse]

theorem cidrStr_no_space {a p : Nat} (hp : p ≤ 32) :
    ∀ c ∈ ipChars a ++ '/' :: natChars p, isPySpace c = false := by
  intro c hc
  simp only [List.mem_append, List.mem_cons] at hc
  have hip : ∀ d ∈ ipChars a, isPySpace d = false := by
    intro d hd
    unfold ipChars ipFirst3Chars at hd
    simp only [List.append_assoc, List.cons_append, List.mem_append, List.mem_cons] at hd
    rcases hd with hd | hd | hd | hd | hd | hd | hd
    · exact isPySpace_of_isDigit (natChars_all_digit (by omega) _ hd)
    · subst hd; rfl
    · exact isPySpace_of_isDigit (natChars_all_digit (by omega) _ hd)
    · subst hd; rfl
    · exact isPySpace_of_isDigit (natChars_all_digit (by omega) _ hd)
    · subst hd; rfl
    · exact isPySpace_of_isDigit (natChars_all_digit (by omega) _ hd)
  rcases hc with hc | hc | hc
  · exact hip c hc
  · subst hc; rfl
  · exact isPySpace_of_isDigit (natChars_all_digit (by omega) _ hc)

theorem mem_hostAddrs {base p : Nat} (n : Nat) :
    n ∈ hostAddrs base p ↔ usableHost base p n := by
  unfold hostAddrs usableHost networkSize
  by_cases h31 : 31 ≤ p
  · rw [if_pos h31]
    simp only [List.mem_map, List.mem_range]
    constructor
    · rintro ⟨i, hi, rfl⟩
      exact ⟨by omega, by omega, fun hple => absurd hple (by omega)⟩
    · rintro ⟨hb1, hb2, _⟩
      exact ⟨n - base, by omega, by omega⟩
  · rw [if_neg h31]
    have hs : 4 ≤ 2 ^ (32 - p) := by
      calc (4 : Nat) = 2 ^ 2 := rfl
        _ ≤ 2 ^ (32 - p) := Nat.pow_le_pow_right (by omega) (by omega)
    simp only [List.mem_map, List.mem_range]
    constructor
    · rintro ⟨i, hi, rfl⟩
      refine ⟨by omega, by omega, fun _ => ⟨by omega, by omega⟩⟩
    · rintro ⟨hb1, hb2, hmid⟩
      obtain ⟨hn1, hn2⟩ := hmid (by omega)
      exact ⟨n - base - 1, by omega, by omega⟩

theorem nodup_hostAddrs (base p : Nat) : (hostAddrs base p).Nodup := by
  unfold hostAddrs
  split <;> exact (List.nodup_range _).map (fun i j hij => by omega)

theorem hostAddrs_lt {a p n : Nat} (ha : a < 4294967296) (hp : p ≤ 32)
    (h : n ∈ hostAddrs (a - a % 2 ^ (32 - p)) p) : n < 4294967296 := by
  have hmem := (mem_hostAddrs n).mp h
  unfold usableHost networkSize at hmem
  obtain ⟨h1, h2, _⟩ := hmem
  have hs : 0 < 2 ^ (32 - p) := Nat.pow_pos (by omega)
  have hks : 2 ^ p * 2 ^ (32 - p) = 4294967296 := by
    have hpp : p + (32 - p) = 32 := by omega
    rw [← pow_add, hpp]
    norm_num
  have hmd := Nat.mod_add_div a (2 ^ (32 - p))
  have hdlt : a / 2 ^ (32 - p) < 2 ^ p := by
    rcases Nat.lt_or_ge (a / 2 ^ (32 - p)) (2 ^ p) with hlt | hge
    · exact hlt
    · exfalso
      have : 2 ^ p * 2 ^ (32 - p) ≤ (a / 2 ^ (32 - p)) * 2 ^ (32 - p) :=
        Nat.mul_le_mul_right _ hge
      have h2 : (a / 2 ^ (32 - p)) * 2 ^ (32 - p) ≤ a := Nat.div_mul_le_self a _
      omega
  have hble : (a / 2 ^ (32 - p) + 1) * 2 ^ (32 - p) ≤ 2 ^ p * 2 ^ (32 - p) :=
    Nat.mul_le_mul_right _ (by omega)
  have hbase : a - a % 2 ^ (32 - p) = 2 ^ (32 - p) * (a / 2 ^ (32 - p)) := by omega
  nlinarith [hmd]

/-! ## C7 claim -/

/-- C7: For every valid dotted-quad IPv4 CIDR input whose expansion is
under the size cap (prefix length at least 16, so at most 65536
addresses), `_expand_hosts` returns exactly the usable host addresses of
the (masked) block: the returned list is the dotted-quad rendering of the
block's host list, that host list contains an address iff it is a usable
host of the block (all addresses minus network/broadcast, which are
included for /31 and /32), and the returned list has no duplicates.  The
function is pure, so the order is the same on every call. -/
theorem c7_cidr_expansion (a p : Nat) (ha : a < 4294967296) (hp1 : 16 ≤ p)
    (hp2 : p ≤ 32) :
    expandHosts (String.mk (ipChars a ++ '/' :: natChars p)) =
        (hostAddrs (a - a % 2 ^ (32 - p)) p).map ipStr ∧
      (∀ n, n ∈ hostAddrs (a - a % 2 ^ (32 - p)) p ↔
        usableHost (a - a % 2 ^ (32 - p)) p n) ∧
      (expandHosts (String.mk (ipChars a ++ '/' :: natChars p))).Nodup := by
  have hstrip : pyStrip (String.mk (ipChars a ++ '/' :: natChars p)).data =
      ipChars a ++ '/' :: natChars p := pyStrip_eq_self (cidrStr_no_space hp2)
  have hsize : networkSize p ≤ 65536 := by
    unfold networkSize
    calc 2 ^ (32 - p) ≤ 2 ^ 16 := Nat.pow_le_pow_right (by omega) (by omega)
      _ = 65536 := by norm_num
  have h1 : expandHosts (String.mk (ipChars a ++ '/' :: natChars p)) =
      (hostAddrs (a - a % 2 ^ (32 - p)) p).map ipStr := by
    unfold expandHosts
    rw [hstrip]
    unfold expandHostsL
    rw [parseIPv4_cidrStr hp2]
    dsimp only
    rw [parseCIDR_roundtrip ha hp2]
    dsimp only
    rw [if_pos hsize]
  refine ⟨h1, fun n => mem_hostAddrs n, ?_⟩
  rw [h1]
  refine List.Nodup.map_on ?_ (nodup_hostAddrs _ _)
  intro x hx y hy hxy
  have hxlt := hostAddrs_lt ha hp2 hx
  have hylt := hostAddrs_lt ha hp2 hy
  have hdata : ipChars x = ipChars y := by
    have := congrArg String.data hxy
    simpa [ipStr] using this
  have hsome : (some x : Option Nat) = some y := by
    rw [← parseIPv4_ipChars hxlt, ← parseIPv4_ipChars hylt, hdata]
  injection hsome

/-- C7 witness: the theorem applied to the concrete block
`192.168.1.0/30` (address 3232235776), together with the concrete value
of the expansion. -/
theorem c7_cidr_expansion_witness :
    (expandHosts (String.mk (ipChars 3232235776 ++ '/' :: natChars 30)) =
        (hostAddrs (3232235776 - 3232235776 % 2 ^ (32 - 30)) 30).map ipStr ∧
      (∀ n, n ∈ hostAddrs (3232235776 - 3232235776 % 2 ^ (32 - 30)) 30 ↔
        usableHost (3232235776 - 3232235776 % 2 ^ (32 - 30)) 30 n) ∧
      (expandHosts (String.mk (ipChars 3232235776 ++ '/' :: natChars 30))).Nodup) ∧
    expandHosts "192.168.1.0/30" = ["192.168.1.1", "192.168.1.2"] :=
  ⟨c7_cidr_expansion 3232235776 30 (by decide) (by decide) (by decide), by decide⟩

/-! ## Exploit registry (enter_engine.py lines 21-57) -/

/-- One entry of `EXPLOIT_REGISTRY` (`ExploitModuleDescriptor`). -/
structure ExploitModule where
  id : String
  name : String
  services : List String
  ports : List Int
  cves : List String
  description : String
deriving DecidableEq

/-- The static exploit registry, in Python dict insertion order. -/
def EXPLOIT_REGISTRY : List ExploitModule :=
  [⟨"ssh_bruteforce", "SSH Credential Bruteforce", ["ssh"], [22, 2222], [],
    "Tests common SSH credentials"⟩,
   ⟨"ftp_anonymous", "FTP Anonymous Access", ["ftp"], [21], [],
    "Checks for anonymous FTP login"⟩,
   ⟨"http_default_creds", "HTTP Default Credentials",
    ["http", "https", "http-proxy", "https-alt"], [80, 443, 8080, 8443, 8888], [],
    "Tests default web application credentials"⟩,
   ⟨"smb_null_session", "SMB Null Session", ["microsoft-ds", "netbios-ssn"],
    [445, 139], [], "Checks for SMB null session and share enumeration"⟩,
   ⟨"banner_grab", "Service Banner Grab", ["*"], [], [],
    "Grabs service banner for information disclosure"⟩]

/-! ## Socket scanning (nmap_scanner.py / seek_scanner.py)

The network is a world parameter `net : String → Int → ScanOutcome`
giving, per host and port, the outcome of the TCP connection attempt
made by `_scan_port_socket`. -/

/-- Outcome of one `asyncio.open_connection` attempt: a completed
handshake, an explicit reset (`ConnectionRefusedError`), or a
timeout/`OSError`/other failure (all of which the code maps to `None`). -/
inductive ScanOutcome where
  | handshake
  | refused
  | timeoutErr
deriving DecidableEq

/-- Model of `PortScanResult` fields used by the socket path. -/
structure PortScanResult where
  host : String
  port : Int
  state : String
  service : String
deriving DecidableEq

/-- Model of `_COMMON_SERVICES.get(port, "")`. -/
def commonServices (p : Int) : String :=
  if p = 21 then "ftp" else if p = 22 then "ssh" else if p = 23 then "telnet"
  else if p = 25 then "smtp" else if p = 53 then "dns" else if p = 80 then "http"
  else if p = 110 then "pop3" else if p = 111 then "rpcbind" else if p = 135 then "msrpc"
  else if p = 139 then "netbios-ssn" else if p = 143 then "imap"
  else if p = 443 then "https" else if p = 445 then "microsoft-ds"
  else if p = 465 then "smtps" else if p = 587 then "submission"
  else if p = 631 then "ipp" else if p = 993 then "imaps" else if p = 995 then "pop3s"
  else if p = 1433 then "mssql" else if p = 1521 then "oracle"
  else if p = 1723 then "pptp" else if p = 3306 then "mysql"
  else if p = 3389 then "ms-wbt-server" else if p = 5432 then "postgresql"
  else if p = 5900 then "vnc" else if p = 5901 then "vnc-1" else if p = 6379 then "redis"
  else if p = 8080 then "http-proxy" else if p = 8443 then "https-alt"
  else if p = 8888 then "http-alt" else if p = 9090 then "zeus-admin"
  else if p = 9200 then "elasticsearch" else if p = 27017 then "mongodb" else ""

/-- Model of `_scan_port_socket(target, port)`: an open result on a completed
handshake (annotated from the static service table), a closed result on
an explicit reset, `None` on timeout or any other error. -/
def scanPortSocket (net : String → Int → ScanOutcome) (target : String)
    (port : Int) : Option PortScanResult :=
  match net target port with
  | .handshake => some ⟨target, port, "open", commonServices port⟩
  | .refused => some ⟨target, port, "closed", ""⟩
  | .timeoutErr => none

/-- The fixed probe ports of the liveness phase (seek_scanner.py line 202). -/
def probePorts : List Int := [22, 80, 443, 445, 3389, 8080, 21, 23, 53, 3306]

/-- Model of `_probe_host(host_ip)`: the host-ip when any probe port produced a
result (open or closed), else `None`.  (The Python loop returns on the
first non-`None` entry of the gathered results.) -/
def probeHost (net : String → Int → ScanOutcome) (h : String) : Option String :=
  match (probePorts.map (scanPortSocket net h)).find? (fun r => r.isSome) with
  | some _ => some h
  | none => none

/-! ## Result shapes (models/seek_enter.py) -/

/-- Model of `DiscoveredService` (pydantic defaults inlined). -/
structure DiscoveredService where
  port : Int
  protocol : String := "tcp"
  service : String := ""
  product : String := ""
  version : String := ""
  extrainfo : String := ""
  cpe : String := ""
deriving DecidableEq

/-- Model of `ServiceVuln`.  The `cvss` float is kept as the raw token string
(`cvss_raw`); no claim depends on its numeric value and the surrounding
control flow never fails on it (a malformed score just becomes 0.0). -/
structure ServiceVuln where
  cve_id : String := ""
  cvss_raw : String := ""
  description : String := ""
  exploit_available : Bool := false
  exploit_id : String := ""
deriving DecidableEq

/-- Model of `DiscoveredHost`. -/
structure DiscoveredHost where
  ip : String
  hostname : String := ""
  os_guess : String := ""
  state : String := "up"
  services : List DiscoveredService := []
  vulns : List ServiceVuln := []
deriving DecidableEq

/-- Model of `SeekResult`. -/
structure SeekResult where
  scan_id : String
  cidr : String
  hosts_scanned : Nat := 0
  hosts_alive : Nat := 0
  hosts : List DiscoveredHost := []
deriving DecidableEq

/-! ## `_seek_with_sockets` (seek_scanner.py lines 175-283) -/

/-- The open services found by the phase-2 sweep of one alive host:
one `DiscoveredService` per open port (`result.service or
_COMMON_SERVICES.get(result.port, "")`). -/
def hostServices (net : String → Int → ScanOutcome) (port_list : List Int)
    (h : String) : List DiscoveredService :=
  port_list.filterMap (fun p =>
    match scanPortSocket net h p with
    | some r =>
      if r.state = "open" then
        some { port := r.port, protocol := "tcp",
               service := if r.service ≠ "" then r.service else commonServices r.port }
      else none
    | none => none)

/-- String comparison used by Python `sorted` on strings. -/
def strLeB (a b : String) : Bool := decide (a ≤ b)

/-- Model of `_seek_with_sockets(cidr, ports, ...)`.  `none` models the uncaught
`ValueError` from `_parse_port_range` on a malformed port spec (only
reachable once the host expansion is nonempty).  Batching and
concurrency do not change which hosts are probed or which results are
collected, so the phases are folded into list traversals; the alive set
is the deduplicated set of hosts whose probe succeeded, iterated in
sorted order (`sorted(alive_hosts)`). -/
def seekWithSockets (cidr ports : String) (net : String → Int → ScanOutcome) :
    Option SeekResult :=
  let all_hosts := expandHosts cidr
  if all_hosts.isEmpty then
    some { scan_id := "", cidr := cidr, hosts_scanned := 0, hosts_alive := 0, hosts := [] }
  else
    match parsePortRange ports with
    | none => none
    | some port_list =>
      let alive := (all_hosts.filter (fun h => (probeHost net h).isSome)).dedup
      if alive.isEmpty then
        some { scan_id := "", cidr := cidr, hosts_scanned := all_hosts.length,
               hosts_alive := 0, hosts := [] }
      else
        let alive_list := sortLe strLeB alive
        let hosts := alive_list.filterMap (fun h =>
          if (hostServices net port_list h).isEmpty then none
          else some { ip := h, hostname := "", os_guess := "", state := "up",
                      services := hostServices net port_list h, vulns := [] })
        some { scan_id := "", cidr := cidr, hosts_scanned := all_hosts.length,
               hosts_alive := hosts.length, hosts := hosts }

theorem filterMap_ite_eq {α β : Type} (l : List α) (c : α → Bool) (f : α → β) :
    (l.filterMap fun h => if c h then none else some (f h)) =
      (l.filter fun h => !c h).map f := by
  induction l with
  | nil => rfl
  | cons x xs ih =>
    simp only [List.filterMap_cons, List.filter_cons]
    cases hc : c x <;> simp [hc, ih]

/-! ## C4, C5, C6 claims -/

/-- C6: For every host probed by the liveness prober, the host is
classified alive (`_probe_host` returns the host) iff at least one of
the fixed probe ports yields a definitive TCP response — a completed
handshake, which `_scan_port_socket` reports as an open result, or an
explicit reset, reported as a closed result; a host whose probe attempts
all end in timeouts or other non-definitive errors is never classified
alive. -/
theorem c6_probe_alive (net : String → Int → ScanOutcome) (h : String) :
    ((probeHost net h).isSome ↔
      ∃ p ∈ probePorts,
        net h p = ScanOutcome.handshake ∨ net h p = ScanOutcome.refused) ∧
    (∀ p, net h p = ScanOutcome.handshake →
      scanPortSocket net h p =
        some { host := h, port := p, state := "open", service := commonServices p }) ∧
    (∀ p, net h p = ScanOutcome.refused →
      scanPortSocket net h p = some { host := h, port := p, state := "closed", service := "" }) ∧
    ((∀ p ∈ probePorts, net h p = ScanOutcome.timeoutErr) → probeHost net h = none) := by
  have hiff : ∀ p : Int, (scanPortSocket net h p).isSome = true ↔
      (net h p = ScanOutcome.handshake ∨ net h p = ScanOutcome.refused) := by
    intro p
    unfold scanPortSocket
    cases hnet : net h p <;> simp [hnet]
  refine ⟨?_, ?_, ?_, ?_⟩
  · unfold probeHost
    rcases hfind : (probePorts.map (scanPortSocket net h)).find? (fun r => r.isSome) with _ | r
    · rw [hfind]
      simp only [Option.isSome_none, Bool.false_eq_true, false_iff]
      rintro ⟨p, hp, hdef⟩
      have hnone := List.find?_eq_none.mp hfind
      have hmem : scanPortSocket net h p ∈ probePorts.map (scanPortSocket net h) :=
        List.mem_map.mpr ⟨p, hp, rfl⟩
      have := hnone _ hmem
      rw [(hiff p).mpr hdef] at this
      exact this rfl
    · rw [hfind]
      simp only [Option.isSome_some, true_iff]
      have hmem := List.find?_some hfind
      have hmem2 := List.mem_of_find?_eq_some hfind
      obtain ⟨p, hp, hpe⟩ := List.mem_map.mp hmem2
      refine ⟨p, hp, (hiff p).mp ?_⟩
      rw [hpe]
      exact hmem
  · intro p hp
    unfold scanPortSocket
    rw [hp]
  · intro p hp
    unfold scanPortSocket
    rw [hp]
  · intro hall
    unfold probeHost
    rcases hfind : (probePorts.map (scanPortSocket net h)).find? (fun r => r.isSome) with _ | r
    · rw [hfind]
    · exfalso
      have hmem := List.find?_some hfind
      have hmem2 := List.mem_of_find?_eq_some hfind
      obtain ⟨p, hp, hpe⟩ := List.mem_map.mp hmem2
      have hdef := (hiff p).mp (by rw [hpe]; exact hmem)
      have := hall p hp
      rcases hdef with hd | hd <;> rw [this] at hd <;> exact ScanOutcome.noConfusion hd

/-- Network world where every connection attempt times out. -/
def netTimeout : String → Int → ScanOutcome := fun _ _ => ScanOutcome.timeoutErr

/-- Network world where port 22 sends an explicit reset and every other
port times out. -/
def netRefused22 : String → Int → ScanOutcome :=
  fun _ p => if p = 22 then ScanOutcome.refused else ScanOutcome.timeoutErr

/-- Network world where ports 22 and 80 complete the handshake and every
other port times out. -/
def netOpen2280 : String → Int → ScanOutcome :=
  fun _ p => if p = 22 ∨ p = 80 then ScanOutcome.handshake else ScanOutcome.timeoutErr

/-- C6 witness: `c6_probe_alive` applied to concrete worlds — a host
answering with a reset on probe port 22 is alive, a host timing out
everywhere is not. -/
theorem c6_probe_alive_witness :
    (probeHost netRefused22 "10.0.0.5").isSome = true ∧
      probeHost netTimeout "10.0.0.9" = none := by
  constructor
  · exact (c6_probe_alive netRefused22 "10.0.0.5").1.mpr ⟨22, by decide, by decide⟩
  · exact (c6_probe_alive netTimeout "10.0.0.9").2.2.2 (fun p _ => rfl)

/-- C4, counterexample: a Seek call whose target spec is unparseable
(`"not-an-ip"`) or whose expansion exceeds the size cap (`"10.0.0.0/8"`,
2^24 addresses) does NOT fail: `_expand_hosts` returns the empty list
with only a logged warning and `_seek_with_sockets` completes normally
with an empty `SeekResult` (`hosts_scanned=0, hosts_alive=0, hosts=[]`).
-/
theorem c4_counterexample :
    expandHosts "not-an-ip" = [] ∧
      seekWithSockets "not-an-ip" "80" netTimeout =
        some { scan_id := "", cidr := "not-an-ip", hosts_scanned := 0,
               hosts_alive := 0, hosts := [] } ∧
      expandHosts "10.0.0.0/8" = [] ∧
      seekWithSockets "10.0.0.0/8" "80" netTimeout =
        some { scan_id := "", cidr := "10.0.0.0/8", hosts_scanned := 0,
               hosts_alive := 0, hosts := [] } := by
  decide

/-- C4 (amended): a Seek call whose target spec is unparseable or whose
expansion would exceed the host-count size cap completes normally with
an empty `SeekResult` (`hosts_scanned=0, hosts_alive=0, hosts=[]`) and a
logged warning — it is not rejected.  (Only a malformed *port* spec
combined with a nonempty expansion fails the call, via the uncaught
`ValueError` of `_parse_port_range`.) -/
theorem c4_empty_expansion (cidr ports : String) (net : String → Int → ScanOutcome)
    (h : expandHosts cidr = []) :
    seekWithSockets cidr ports net =
      some { scan_id := "", cidr := cidr, hosts_scanned := 0, hosts_alive := 0,
             hosts := [] } := by
  unfold seekWithSockets
  rw [h]
  rfl

/-- C4 witness: `c4_empty_expansion` at the unparseable target
`"999.1.2.3"`. -/
theorem c4_empty_expansion_witness :
    seekWithSockets "999.1.2.3" "80" netTimeout =
      some { scan_id := "", cidr := "999.1.2.3", hosts_scanned := 0,
             hosts_alive := 0, hosts := [] } :=
  c4_empty_expansion "999.1.2.3" "80" netTimeout (by decide)

/-- C5, counterexample: the host `10.0.0.5` is classified alive by the
probe phase (port 22 answers with a reset), yet because its port sweep
over the requested set `{80}` finds no open port, `_seek_with_sockets`
creates no `DiscoveredHost` for it and reports `hosts_alive = 0` — the
claim that every probe-alive host appears in the result and is counted
in `hosts_alive` is false. -/
theorem c5_counterexample :
    probeHost netRefused22 "10.0.0.5" = some "10.0.0.5" ∧
      seekWithSockets "10.0.0.5" "80" netRefused22 =
        some { scan_id := "", cidr := "10.0.0.5", hosts_scanned := 1,
               hosts_alive := 0, hosts := [] } := by
  decide

/-- C5 (amended): in the socket fallback path, the returned hosts are
exactly the probe-alive hosts whose sweep found at least one open port
(in sorted order, each carrying its open services), and
`SeekResult.hosts_alive` equals the number of those hosts — not the
number of hosts classified alive by the probe phase; an alive host with
no open port in the requested set is dropped. -/
theorem c5_alive_hosts (cidr ports : String) (net : String → Int → ScanOutcome)
    (pl : List Int) (r : SeekResult)
    (hne : (expandHosts cidr).isEmpty = false)
    (hp : parsePortRange ports = some pl)
    (hr : seekWithSockets cidr ports net = some r) :
    r.hosts = ((sortLe strLeB (((expandHosts cidr).filter
        (fun h => (probeHost net h).isSome)).dedup)).filter
        (fun h => !(hostServices net pl h).isEmpty)).map
        (fun h => { ip := h, hostname := "", os_guess := "", state := "up",
                    services := hostServices net pl h, vulns := [] }) ∧
      r.hosts_alive = r.hosts.length ∧
      r.hosts_scanned = (expandHosts cidr).length ∧
      ∀ h ∈ expandHosts cidr, (probeHost net h).isSome →
        hostServices net pl h ≠ [] → h ∈ r.hosts.map DiscoveredHost.ip := by
  unfold seekWithSockets at hr
  dsimp only at hr
  rw [hne] at hr
  simp only [Bool.false_eq_true, if_false] at hr
  rw [hp] at hr
  dsimp only at hr
  by_cases hae : ((expandHosts cidr).filter (fun h => (probeHost net h).isSome)).dedup.isEmpty = true
  · rw [if_pos hae] at hr
    have hrr := (Option.some.injEq _ _).mp hr
    subst hrr
    have hnil : ((expandHosts cidr).filter (fun h => (probeHost net h).isSome)).dedup = [] := by
      simpa using hae
    refine ⟨by rw [hnil]; rfl, rfl, rfl, ?_⟩
    intro h hmem hprobe _
    exfalso
    have : h ∈ ((expandHosts cidr).filter (fun h => (probeHost net h).isSome)).dedup :=
      List.mem_dedup.mpr (List.mem_filter.mpr ⟨hmem, hprobe⟩)
    rw [hnil] at this
    exact List.not_mem_nil h this
  · rw [if_neg hae] at hr
    have hrr := (Option.some.injEq _ _).mp hr
    subst hrr
    have hhosts :
        ((sortLe strLeB (((expandHosts cidr).filter
            (fun h => (probeHost net h).isSome)).dedup)).filterMap (fun h =>
          if (hostServices net pl h).isEmpty then none
          else some ({ ip := h, hostname := "", os_guess := "", state := "up",
                       services := hostServices net pl h, vulns := [] } : DiscoveredHost))) =
        ((sortLe strLeB (((expandHosts cidr).filter
            (fun h => (probeHost net h).isSome)).dedup)).filter
            (fun h => !(hostServices net pl h).isEmpty)).map
            (fun h => { ip := h, hostname := "", os_guess := "", state := "up",
                        services := hostServices net pl h, vulns := [] }) :=
      filterMap_ite_eq _ _ _
    refine ⟨hhosts, rfl, rfl, ?_⟩
    intro h hmem hprobe hsvc
    have hmem2 : h ∈ sortLe strLeB (((expandHosts cidr).filter
        (fun h => (probeHost net h).isSome)).dedup) :=
      mem_sortLe.mpr (List.mem_dedup.mpr (List.mem_filter.mpr ⟨hmem, hprobe⟩))
    have hmem3 : h ∈ (sortLe strLeB (((expandHosts cidr).filter
        (fun h => (probeHost net h).isSome)).dedup)).filter
        (fun h => !(hostServices net pl h).isEmpty) := by
      refine List.mem_filter.mpr ⟨hmem2, ?_⟩
      simp only [Bool.not_eq_true']
      cases hsv : (hostServices net pl h).isEmpty
      · rfl
      · exact absurd (by simpa using hsv) hsvc
    dsimp only
    rw [hhosts, List.map_map]
    exact List.mem_map.mpr ⟨h, hmem3, rfl⟩

/-- C5 witness: `c5_alive_hosts` applied to the single-host scan
`10.0.0.5`, ports `"80"`, in a world where ports 22 and 80 answer — the
host appears with its `http` service and `hosts_alive = 1`. -/
theorem c5_alive_hosts_witness :
    (seekWithSockets "10.0.0.5" "80" netOpen2280 =
      some { scan_id := "", cidr := "10.0.0.5", hosts_scanned := 1, hosts_alive := 1,
             hosts := [{ ip := "10.0.0.5",
                         services := [{ port := 80, service := "http" }] }] }) ∧
    "10.0.0.5" ∈ ({ scan_id := "", cidr := "10.0.0.5", hosts_scanned := 1,
                     hosts_alive := 1,
                     hosts := [{ ip := "10.0.0.5",
                                 services := [{ port := 80, service := "http" }] }] } :
                   SeekResult).hosts.map DiscoveredHost.ip := by
  have h := c5_alive_hosts "10.0.0.5" "80" netOpen2280 [80]
    { scan_id := "", cidr := "10.0.0.5", hosts_scanned := 1, hosts_alive := 1,
      hosts := [{ ip := "10.0.0.5", services := [{ port := 80, service := "http" }] }] }
    (by decide) (by decide) (by decide)
  exact ⟨by decide, h.2.2.2 "10.0.0.5" (by decide) (by decide) (by decide)⟩

/-! ## `_parse_vulners_output` (seek_scanner.py lines 142-172) -/

/-- The registry cross-reference loop of `_parse_vulners_output`: the
first module whose declared CVE list contains the identifier, as
`(exploit_id, exploit_available)`. -/
def vulnCrossRef (cve : String) : String × Bool :=
  match EXPLOIT_REGISTRY.find? (fun m => m.cves.contains cve) with
  | some m => (m.id, true)
  | none => ("", false)

/-- Model of `_parse_vulners_output(raw)`: one finding per stripped, non-empty,
non-`cpe:` line with at least two whitespace-separated fields; the score
token is kept raw (see `ServiceVuln`). -/
def parseVulnersOutput (raw : String) : List ServiceVuln :=
  (pySplitlines (pyStripStr raw)).filterMap (fun line0 =>
    let line := pyStripStr line0
    if line = "" || pyStartsWith line "cpe:" then none
    else
      match pySplitWs line.data with
      | cve0 :: score :: _ =>
        some { cve_id := pyStripStr (String.mk cve0), cvss_raw := String.mk score,
               description := "",
               exploit_available := (vulnCrossRef (pyStripStr (String.mk cve0))).2,
               exploit_id := (vulnCrossRef (pyStripStr (String.mk cve0))).1 }
      | _ => none)

theorem vulnCrossRef_empty (cve : String) : vulnCrossRef cve = ("", false) := rfl

/-- C10: every `ServiceVuln` produced by the vulnerability mapper has
`exploit_available = false` and `exploit_id = ""`, because every module
in the static exploit registry declares an empty CVE coverage list, so
the cross-reference loop never matches. -/
theorem c10_no_exploit_flag (raw : String) :
    ∀ v ∈ parseVulnersOutput raw, v.exploit_available = false ∧ v.exploit_id = "" := by
  intro v hv
  unfold parseVulnersOutput at hv
  obtain ⟨line0, _, hsome⟩ := List.mem_filterMap.mp hv
  dsimp only at hsome
  split at hsome
  · exact absurd hsome (by simp)
  · split at hsome
    · rw [vulnCrossRef_empty] at hsome
      have := (Option.some.injEq _ _).mp hsome
      subst this
      exact ⟨rfl, rfl⟩
    · exact absurd hsome (by simp)

/-- C10 witness: `c10_no_exploit_flag` on a concrete vulners line. -/
theorem c10_no_exploit_flag_witness :
    ({ cve_id := "CVE-2019-0708", cvss_raw := "9.8", description := "",
       exploit_available := false, exploit_id := "" } : ServiceVuln).exploit_available
        = false ∧
      ({ cve_id := "CVE-2019-0708", cvss_raw := "9.8", description := "",
         exploit_available := false, exploit_id := "" } : ServiceVuln).exploit_id = "" :=
  c10_no_exploit_flag "CVE-2019-0708 9.8 https://example.test/rce"
    { cve_id := "CVE-2019-0708", cvss_raw := "9.8", description := "",
      exploit_available := false, exploit_id := "" } (by decide)

/-! ## `select_exploit` (enter_engine.py lines 73-84) -/

/-- Registry lookup (`exploit_id in EXPLOIT_REGISTRY` / indexing). -/
def registryFind (eid : String) : Option ExploitModule :=
  EXPLOIT_REGISTRY.find? (fun m => m.id == eid)

/-- Model of `select_exploit(service, port, exploit_id)`: an explicit id is
honored iff present in the registry (else `""`); `"auto"` walks the
registry in order, skips `banner_grab`, and returns the first module
whose services contain the service or whose ports contain the port,
falling back to `"banner_grab"`. -/
def select_exploit (service : String) (port : Int) (exploit_id : String) : String :=
  if exploit_id ≠ "auto" then
    if (registryFind exploit_id).isSome then exploit_id else ""
  else
    match EXPLOIT_REGISTRY.find? (fun m =>
        !(m.id == "banner_grab") &&
          (m.services.contains service || m.ports.contains port)) with
    | some m => m.id
    | none => "banner_grab"

/-- Claim-side selection algorithm, written as the spec describes it:
iterate the registry in order, skip the generic fallback module, return
the first match, else the fallback module. -/
def selectAutoSpec (service : String) (port : Int) : List ExploitModule → String
  | [] => "banner_grab"
  | m :: rest =>
    if m.id = "banner_grab" then selectAutoSpec service port rest
    else if service ∈ m.services ∨ port ∈ m.ports then m.id
    else selectAutoSpec service port rest

theorem selectAuto_eq_spec (service : String) (port : Int) :
    ∀ l : List ExploitModule,
      (match l.find? (fun m =>
          !(m.id == "banner_grab") &&
            (m.services.contains service || m.ports.contains port)) with
       | some m => m.id
       | none => "banner_grab") = selectAutoSpec service port l := by
  intro l
  induction l with
  | nil => rfl
  | cons m rest ih =>
    rw [List.find?_cons]
    by_cases hbg : m.id = "banner_grab"
    · have hp : (!(m.id == "banner_grab") &&
          (m.services.contains service || m.ports.contains port)) = false := by
        simp [hbg]
      rw [hp]
      rw [selectAutoSpec, if_pos hbg] at *
      exact ih
    · by_cases hmatch : service ∈ m.services ∨ port ∈ m.ports
      · have hp : (!(m.id == "banner_grab") &&
            (m.services.contains service || m.ports.contains port)) = true := by
          simp only [Bool.and_eq_true, Bool.not_eq_true', beq_eq_false_iff_ne, ne_eq,
            Bool.or_eq_true, List.elem_iff]
          exact ⟨hbg, hmatch⟩
        rw [hp]
        rw [selectAutoSpec, if_neg hbg, if_pos hmatch]
      · have hp : (!(m.id == "banner_grab") &&
            (m.services.contains service || m.ports.contains port)) = false := by
          cases hsv : m.services.contains service
          · cases hpt : m.ports.contains port
            · simp
            · exact absurd (Or.inr (List.elem_iff.mp hpt)) hmatch
          · exact absurd (Or.inl (List.elem_iff.mp hsv)) hmatch
        rw [hp]
        rw [selectAutoSpec, if_neg hbg, if_neg hmatch]
        exact ih

/-- C8: Exploit selection.  With `moduleId="auto"`, `select_exploit`
walks the registry in its fixed order, skips the generic fallback module
`banner_grab`, and returns the first module whose declared service set
contains the service or whose declared port set contains the port,
returning `banner_grab` when no non-fallback module matches (this is
exactly `selectAutoSpec`, the algorithm as the spec words it).  With an
explicit (non-`"auto"`) module id, selection returns that id iff it
exists in the registry and fails (returns `""`) otherwise. -/
theorem c8_select_exploit :
    (∀ (service : String) (port : Int),
      select_exploit service port "auto" = selectAutoSpec service port EXPLOIT_REGISTRY) ∧
    (∀ (service : String) (port : Int) (eid : String), eid ≠ "auto" →
      select_exploit service port eid =
        if ∃ m ∈ EXPLOIT_REGISTRY, m.id = eid then eid else "") := by
  constructor
  · intro service port
    unfold select_exploit
    rw [if_neg (by simp)]
    exact selectAuto_eq_spec service port EXPLOIT_REGISTRY
  · intro service port eid hne
    unfold select_exploit
    rw [if_pos hne]
    unfold registryFind
    by_cases hex : ∃ m ∈ EXPLOIT_REGISTRY, m.id = eid
    · rw [if_pos, if_pos hex]
      rw [List.find?_isSome]
      obtain ⟨m, hm, hid⟩ := hex
      exact ⟨m, hm, by simp [hid]⟩
    · rw [if_neg, if_neg hex]
      rw [List.find?_isSome]
      rintro ⟨m, hm, hid⟩
      exact hex ⟨m, hm, by simpa using hid⟩

/-- C8 witness: `c8_select_exploit` applied to concrete inputs — the
`"auto"` characterisation at service `"ssh"`, port 22, and the failure
of the unknown explicit id `"nope"`. -/
theorem c8_select_exploit_witness :
    (select_exploit "ssh" 22 "auto" = selectAutoSpec "ssh" 22 EXPLOIT_REGISTRY ∧
      select_exploit "nosuch" 9999 "nope" =
        (if ∃ m ∈ EXPLOIT_REGISTRY, m.id = "nope" then "nope" else "")) ∧
    select_exploit "ssh" 22 "auto" = "ssh_bruteforce" ∧
    select_exploit "nosuch" 9999 "nope" = "" ∧
    select_exploit "nosuch" 9999 "auto" = "banner_grab" ∧
    select_exploit "ftp" 21 "auto" = "ftp_anonymous" :=
  ⟨⟨c8_select_exploit.1 "ssh" 22, c8_select_exploit.2 "nosuch" 9999 "nope" (by decide)⟩,
   by decide, by decide, by decide, by decide⟩

/-! ## Enter engine events (enter_engine.py / models/seek_enter.py)

Each exploit module is an async generator of `EnterEvent`s whose network
and subprocess interactions are driven by a per-module world record.
Timestamps (wall-clock reads in `_event`) are not modelled; every claim
concerns event kinds, order and message text. -/

/-- The event kinds of `EnterEvent.event_type`. -/
inductive EventType where
  | info
  | command
  | output
  | success
  | error
  | complete
deriving DecidableEq

/-- Model of `EnterEvent` (without the wall-clock timestamp). -/
structure EnterEvent where
  event_type : EventType
  message : String
  module : String := ""
deriving DecidableEq

/-- Model of `_event(event_type, message, module="")`. -/
def enterEvent (t : EventType) (msg : String) (module : String := "") : EnterEvent :=
  { event_type := t, message := msg, module := module }

/-- Is the event a `complete` event? -/
def isComplete (e : EnterEvent) : Bool :=
  match e.event_type with
  | .complete => true
  | _ => false

/-- Is the event an `error` event? -/
def isError (e : EnterEvent) : Bool :=
  match e.event_type with
  | .error => true
  | _ => false

/-- Is the event a `success` event? -/
def isSuccess (e : EnterEvent) : Bool :=
  match e.event_type with
  | .success => true
  | _ => false

/-- Number of `complete` events in a stream. -/
def countComplete (l : List EnterEvent) : Nat := l.countP isComplete

/-- Number of `error` events in a stream. -/
def countError (l : List EnterEvent) : Nat := l.countP isError

/-- Does the stream contain a `success` event? -/
def hasSuccess (l : List EnterEvent) : Bool := l.any isSuccess

/-- Model of `EXPLOIT_REGISTRY.get(exploit_id, {}).get("name", exploit_id)`. -/
def registryName (eid : String) : String :=
  match registryFind eid with
  | some m => m.name
  | none => eid

/-! ## ssh_bruteforce module (enter_engine.py lines 128-243) -/

/-- The fixed credential list. -/
def sshCreds : List (String × String) :=
  [("root", "root"), ("root", "toor"), ("root", "password"),
   ("admin", "admin"), ("admin", "password"), ("admin", "123456"),
   ("pi", "raspberry"), ("ubuntu", "ubuntu"), ("user", "user"),
   ("root", ""), ("admin", "")]

/-- Outcome of one subprocess (`sshpass`/`plink`) attempt: an exception
or timeout, or a finished process with its return code and (decoded,
stripped) stdout. -/
inductive SshProcAttempt where
  | raised
  | done (returncode : Int) (stdout : String)

/-- Environment/network world of the ssh_bruteforce module. -/
structure SshWorld where
  /-- `import asyncssh` succeeds. -/
  asyncsshAvailable : Bool
  /-- `shutil.which("sshpass")` finds the binary. -/
  sshpassPresent : Bool
  /-- `shutil.which("plink")` finds the binary. -/
  plinkPresent : Bool
  /-- Outcome of asyncssh attempt number `i`: `none` when the
  connect/run raised (any exception), `some out` when authentication
  succeeded and the `id` command printed `out` (already stripped). -/
  libAttempt : Nat → Option String
  /-- Outcome of subprocess attempt number `i`. -/
  procAttempt : Nat → SshProcAttempt
  /-- No-tool fallback banner grab: `some raw` when connect+readline
  delivered `raw`, `none` when the connection failed. -/
  fallbackBanner : Option String

/-- The asyncssh credential loop; returns the events and the `success`
flag.  On the first successful attempt the loop emits the two `success`
events plus the shell output and breaks. -/
def sshLibLoop (att : Nat → Option String) : Nat → List (String × String) →
    List EnterEvent × Bool
  | _, [] => ([], false)
  | i, (u, pw) :: rest =>
    let dp := if pw = "" then "(empty)" else pw
    let testing := enterEvent .output ("    Testing " ++ u ++ ":" ++ dp ++ " ...")
      "ssh_bruteforce"
    match att i with
    | some out =>
      let access := if strContains out "uid=0" then "root" else "user"
      (testing ::
        enterEvent .success ("[+] SUCCESS: " ++ u ++ ":" ++ dp) "ssh_bruteforce" ::
        enterEvent .output ("    Shell output: " ++ out) "ssh_bruteforce" ::
        [enterEvent .success ("[+] Access level: " ++ access) "ssh_bruteforce"], true)
    | none =>
      let r := sshLibLoop att (i + 1) rest
      (testing :: r.1, r.2)

/-- The sshpass/plink credential loop: an attempt succeeds iff the
process finished with return code 0 and nonempty output. -/
def sshProcLoop (att : Nat → SshProcAttempt) : Nat → List (String × String) →
    List EnterEvent × Bool
  | _, [] => ([], false)
  | i, (u, pw) :: rest =>
    let dp := if pw = "" then "(empty)" else pw
    let testing := enterEvent .output ("    Testing " ++ u ++ ":" ++ dp ++ " ...")
      "ssh_bruteforce"
    match att i with
    | .done rc out =>
      if rc = 0 ∧ out ≠ "" then
        let access := if strContains out "uid=0" then "root" else "user"
        (testing ::
          enterEvent .success ("[+] SUCCESS: " ++ u ++ ":" ++ dp) "ssh_bruteforce" ::
          enterEvent .output ("    Shell output: " ++ out) "ssh_bruteforce" ::
          [enterEvent .success ("[+] Access level: " ++ access) "ssh_bruteforce"], true)
      else
        let r := sshProcLoop att (i + 1) rest
        (testing :: r.1, r.2)
    | .raised =>
      let r := sshProcLoop att (i + 1) rest
      (testing :: r.1, r.2)

/-- Model of `_exploit_ssh_bruteforce(target, port, options)`. -/
def sshEvents (target : String) (port : Int) (w : SshWorld) : List EnterEvent :=
  let m := "ssh_bruteforce"
  let head := enterEvent .command
    ("[>] Testing " ++ natStr sshCreds.length ++ " credential pairs against SSH") m
  let importEvs :=
    if w.asyncsshAvailable then []
    else
      [enterEvent .info "[!] asyncssh not installed — install with: pip install asyncssh" m,
       enterEvent .info "[*] Falling back to subprocess SSH authentication" m]
  let body :=
    if w.asyncsshAvailable then sshLibLoop w.libAttempt 0 sshCreds
    else if w.sshpassPresent then
      let r := sshProcLoop w.procAttempt 0 sshCreds
      (enterEvent .info "[*] Using sshpass for credential testing" m :: r.1, r.2)
    else if w.plinkPresent then
      let r := sshProcLoop w.procAttempt 0 sshCreds
      (enterEvent .info "[*] Using plink for credential testing" m :: r.1, r.2)
    else
      ((match w.fallbackBanner with
        | some b => [enterEvent .output ("    Banner: " ++ pyStripStr b) m]
        | none =>
          [enterEvent .error ("[!] Connection failed to " ++ target ++ ":" ++ intStr port) m]) ++
        [enterEvent .error "[!] No SSH auth tool available. Install asyncssh: pip install asyncssh" m],
       false)
  head :: importEvs ++ body.1 ++
    (if body.2 then [] else [enterEvent .error "[-] No valid credentials found" m])

/-! ## ftp_anonymous module (enter_engine.py lines 246-287) -/

/-- Network world of the ftp_anonymous module.  The module performs a
fixed sequence of socket operations inside one `try`; `failIdx = some k`
means the `k`-th operation of the executed sequence raised (with message
`excMsg`), after which the single catch-all emits the connection-failed
`error` event.  Operation indices, in executed order: 0 connect,
1 read banner, 2 send USER, 3 read USER reply, 4 send PASS, 5 read PASS
reply, then on the `230` path 6 send PWD, 7 read PWD reply, 8 send QUIT,
9 close — and on the rejection path 6 send QUIT, 7 close.  The reply
fields hold the raw decoded lines (stripping happens in the module). -/
structure FtpWorld where
  banner : String
  userResp : String
  passResp : String
  pwdResp : String
  failIdx : Option Nat
  excMsg : String

/-- Does the `i`-th executed operation raise? -/
def ftpFailsAt (w : FtpWorld) (i : Nat) : Bool := w.failIdx == some i

/-- Model of `_exploit_ftp_anonymous(target, port, options)`. -/
def ftpEvents (w : FtpWorld) : List EnterEvent :=
  let m := "ftp_anonymous"
  let errE := enterEvent .error ("[!] FTP connection failed: " ++ w.excMsg) m
  enterEvent .command "[>] Checking for anonymous FTP access" m ::
    (if ftpFailsAt w 0 || ftpFailsAt w 1 then [errE]
     else
      enterEvent .output ("    Banner: " ++ pyStripStr w.banner) m ::
        (if ftpFailsAt w 2 || ftpFailsAt w 3 then [errE]
         else
          enterEvent .output ("    USER: " ++ pyStripStr w.userResp) m ::
            (if ftpFailsAt w 4 || ftpFailsAt w 5 then [errE]
             else
              enterEvent .output ("    PASS: " ++ pyStripStr w.passResp) m ::
                (if pyStartsWith (pyStripStr w.passResp) "230" then
                  enterEvent .success "[+] Anonymous FTP login SUCCESSFUL" m ::
                    (if ftpFailsAt w 6 || ftpFailsAt w 7 then [errE]
                     else
                      enterEvent .output ("    PWD: " ++ pyStripStr w.pwdResp) m ::
                        (if ftpFailsAt w 8 || ftpFailsAt w 9 then [errE] else []))
                 else
                  enterEvent .error "[-] Anonymous login rejected" m ::
                    (if ftpFailsAt w 6 || ftpFailsAt w 7 then [errE] else [])))))

/-! ## http_default_creds module (enter_engine.py lines 289-342) -/

/-- The fixed web credential list. -/
def httpCreds : List (String × String) :=
  [("admin", "admin"), ("admin", "password"), ("admin", "123456"),
   ("root", "root"), ("administrator", "administrator"),
   ("admin", "admin123"), ("admin", ""), ("user", "user")]

/-- The form login paths. -/
def loginPaths : List String :=
  ["/", "/login", "/admin", "/admin/login", "/wp-login.php"]

/-- Environment/network world of the http_default_creds module.  The
module body can raise before its first yield (`import httpx`) or at
client creation; both propagate out of the generator (a crash). -/
structure HttpWorld where
  /-- `import httpx` succeeds. -/
  httpxAvailable : Bool
  /-- Message of the `ImportError` when it does not. -/
  importExcMsg : String
  /-- `httpx.AsyncClient(...)` construction succeeds. -/
  clientOk : Bool
  /-- Message of the exception when it does not. -/
  clientExcMsg : String
  /-- Basic-auth GET number `i`: `none` when the request raised,
  `some status` otherwise. -/
  basicResult : Nat → Option Int
  /-- Form POST number `j` (flat index over paths × 4 creds): `none`
  when the request raised, `some (status, location)` otherwise. -/
  formResult : Nat → Option (Int × String)

/-- Phase 1: HTTP basic auth over all credentials; success on any
status outside {401, 403}, which returns from the generator. -/
def httpBasicLoop (res : Nat → Option Int) : Nat → List (String × String) →
    List EnterEvent × Bool
  | _, [] => ([], false)
  | i, (u, pw) :: rest =>
    let dp := if pw = "" then "(empty)" else pw
    let testing := enterEvent .output ("    " ++ u ++ ":" ++ dp ++ " ...")
      "http_default_creds"
    match res i with
    | none =>
      let r := httpBasicLoop res (i + 1) rest
      (testing :: r.1, r.2)
    | some code =>
      if code ≠ 401 ∧ code ≠ 403 then
        (testing :: [enterEvent .success
          ("[+] Basic Auth SUCCESS: " ++ u ++ ":" ++ dp ++ " (HTTP " ++ intStr code ++ ")")
          "http_default_creds"], true)
      else
        let r := httpBasicLoop res (i + 1) rest
        (testing :: r.1, r.2)

/-- Phase 2, inner loop: the first four credentials against one path;
success on a 302/303 whose lowercased location contains a dashboard-ish
keyword, which returns from the generator. -/
def httpFormLoopCreds (res : Nat → Option (Int × String)) (path : String) :
    Nat → List (String × String) → List EnterEvent × Bool
  | _, [] => ([], false)
  | j, (u, pw) :: rest =>
    let testing := enterEvent .output ("    POST " ++ path ++ " " ++ u ++ ":" ++ pw ++ " ...")
      "http_default_creds"
    match res j with
    | none =>
      let r := httpFormLoopCreds res path (j + 1) rest
      (testing :: r.1, r.2)
    | some (code, location) =>
      if code = 302 ∨ code = 303 then
        let loc := pyLower location
        if strContains loc "dashboard" || strContains loc "admin" ||
            strContains loc "home" || strContains loc "panel" then
          (testing :: [enterEvent .success
            ("[+] Form login SUCCESS: " ++ u ++ ":" ++ pw ++ " -> " ++ loc)
            "http_default_creds"], true)
        else
          let r := httpFormLoopCreds res path (j + 1) rest
          (testing :: r.1, r.2)
      else
        let r := httpFormLoopCreds res path (j + 1) rest
        (testing :: r.1, r.2)

/-- Phase 2, outer loop over the login paths. -/
def httpFormLoopPaths (res : Nat → Option (Int × String)) :
    Nat → List String → List EnterEvent × Bool
  | _, [] => ([], false)
  | j, path :: rest =>
    let r := httpFormLoopCreds res path j (httpCreds.take 4)
    if r.2 then (r.1, true)
    else
      let r2 := httpFormLoopPaths res (j + 4) rest
      (r.1 ++ r2.1, r2.2)

/-- Model of `_exploit_http_default_creds(target, port, service, options)`:
the events, plus `some excMsg` when the generator raised (crash). -/
def httpEvents (target : String) (port : Int) (service : String) (w : HttpWorld) :
    List EnterEvent × Option String :=
  if !w.httpxAvailable then ([], some w.importExcMsg)
  else
    let scheme := if port = 443 ∨ port = 8443 ∨ strContains service "https" then "https"
      else "http"
    let base_url := scheme ++ "://" ++ target ++ ":" ++ intStr port
    let cmd := enterEvent .command ("[>] Testing default credentials on " ++ base_url)
      "http_default_creds"
    if !w.clientOk then ([cmd], some w.clientExcMsg)
    else
      let ph1 := enterEvent .info "[*] Phase 1: Testing HTTP Basic Auth" "http_default_creds"
      let r1 := httpBasicLoop w.basicResult 0 httpCreds
      if r1.2 then (cmd :: ph1 :: r1.1, none)
      else
        let ph2 := enterEvent .info "[*] Phase 2: Testing form-based login" "http_default_creds"
        let r2 := httpFormLoopPaths w.formResult 0 loginPaths
        if r2.2 then (cmd :: ph1 :: r1.1 ++ ph2 :: r2.1, none)
        else
          (cmd :: ph1 :: r1.1 ++ ph2 :: r2.1 ++
            [enterEvent .error "[-] No default credentials worked" "http_default_creds"], none)

/-! ## smb_null_session module (enter_engine.py lines 345-385) -/

/-- Outcome of the `smbclient` subprocess call. -/
inductive SmbProc where
  | raised (exc : String)
  | done (stdout : String) (stderr : String)

/-- Outcome of the no-smbclient fallback probe: connect failed, connect
and close both succeeded, or connect succeeded and the close raised. -/
inductive SmbFallback where
  | connectFail (exc : String)
  | okClosed
  | closeFail (exc : String)

/-- Environment/network world of the smb_null_session module. -/
structure SmbWorld where
  smbclientPresent : Bool
  proc : SmbProc
  fallback : SmbFallback

/-- Model of `_exploit_smb_null_session(target, port, options)`. -/
def smbEvents (target : String) (port : Int) (w : SmbWorld) : List EnterEvent :=
  let m := "smb_null_session"
  enterEvent .command ("[>] Testing SMB null session on " ++ target ++ ":" ++ intStr port) m ::
    (if w.smbclientPresent then
      enterEvent .info "[*] Using smbclient for SMB enumeration" m ::
        (match w.proc with
         | .raised exc => [enterEvent .error ("[!] smbclient failed: " ++ exc) m]
         | .done out err =>
           (pySplitlines out).map (fun line => enterEvent .output ("    " ++ line) m) ++
             (if strContains out "Sharename" then
               [enterEvent .success "[+] SMB null session SUCCESSFUL - shares enumerated" m]
              else
               [enterEvent .error ("[-] SMB null session failed: " ++ pyStripStr err) m]))
     else
      enterEvent .info "[*] smbclient not available, basic port probe only" m ::
        (match w.fallback with
         | .connectFail exc => [enterEvent .error ("[!] Cannot connect to SMB port: " ++ exc) m]
         | .okClosed =>
           [enterEvent .output ("    SMB port " ++ intStr port ++ " is open") m,
            enterEvent .info "[*] Install smbclient for full SMB enumeration" m]
         | .closeFail exc =>
           [enterEvent .output ("    SMB port " ++ intStr port ++ " is open") m,
            enterEvent .error ("[!] Cannot connect to SMB port: " ++ exc) m]))

/-! ## banner_grab module (enter_engine.py lines 388-418) -/

/-- Outcome of one `reader.read(4096)` (or the HEAD probe write+read):
an inner timeout, delivered (decoded) bytes, or another exception that
escapes to the outer handler. -/
inductive ReadOutcome where
  | timedOut
  | got (s : String)
  | raised (exc : String)

/-- Network world of the banner_grab module. -/
structure BannerWorld where
  /-- `some exc` when `open_connection` raised. -/
  connectExc : Option String
  /-- First read. -/
  read1 : ReadOutcome
  /-- HEAD-probe write+read, consulted only when the first read
  delivered empty bytes. -/
  read2 : ReadOutcome
  /-- `some exc` when the final close/wait_closed raised. -/
  closeExc : Option String

/-- Model of `_exploit_banner_grab(target, port, options)`. -/
def bannerEvents (target : String) (port : Int) (w : BannerWorld) : List EnterEvent :=
  let m := "banner_grab"
  let closeEvs :=
    match w.closeExc with
    | some exc => [enterEvent .error ("[!] Connection failed: " ++ exc) m]
    | none => []
  enterEvent .command ("[>] Grabbing banner from " ++ target ++ ":" ++ intStr port) m ::
    (match w.connectExc with
     | some exc => [enterEvent .error ("[!] Connection failed: " ++ exc) m]
     | none =>
       match w.read1 with
       | .raised exc => [enterEvent .error ("[!] Connection failed: " ++ exc) m]
       | .timedOut => enterEvent .info "[*] No banner received (timeout)" m :: closeEvs
       | .got b =>
         if b = "" then
           match w.read2 with
           | .raised exc => [enterEvent .error ("[!] Connection failed: " ++ exc) m]
           | .timedOut => enterEvent .info "[*] No banner received (timeout)" m :: closeEvs
           | .got r =>
             ((pySplitlines r).take 20).map
                 (fun line => enterEvent .output ("    " ++ line) m) ++
               enterEvent .success "[+] HTTP response captured" m :: closeEvs
         else
           (pySplitlines b).map (fun line => enterEvent .output ("    " ++ line) m) ++
             enterEvent .success "[+] Banner captured" m :: closeEvs)

/-! ## `run_exploit` (enter_engine.py lines 87-120) -/

/-- The per-module environment/network world of one Enter run. -/
structure EnterWorld where
  ssh : SshWorld
  ftp : FtpWorld
  http : HttpWorld
  smb : SmbWorld
  banner : BannerWorld

/-- The `"=" * 60` separator line. -/
def eqBar : String := String.mk (List.replicate 60 '=')

/-- Model of `run_exploit(target_ip, port, service, exploit_id, options)`: the
delivered events, plus `some excMsg` when the module generator raised
mid-stream (only the http module can: its `import httpx` and client
construction are not guarded).  On a crash the trailing separator and
`complete` events are never reached. -/
def run_exploit (target : String) (port : Int) (service : String)
    (exploit_id : String) (w : EnterWorld) : List EnterEvent × Option String :=
  let head :=
    [enterEvent .info ("[*] Initializing module: " ++ registryName exploit_id) exploit_id,
     enterEvent .info ("[*] Target: " ++ target ++ ":" ++ intStr port ++ " (" ++ service ++ ")")
       exploit_id,
     enterEvent .info eqBar exploit_id]
  let body :=
    if exploit_id = "ssh_bruteforce" then (sshEvents target port w.ssh, none)
    else if exploit_id = "ftp_anonymous" then (ftpEvents w.ftp, none)
    else if exploit_id = "http_default_creds" then httpEvents target port service w.http
    else if exploit_id = "smb_null_session" then (smbEvents target port w.smb, none)
    else if exploit_id = "banner_grab" then (bannerEvents target port w.banner, none)
    else ([enterEvent .error ("[!] Unknown exploit module: " ++ exploit_id) exploit_id], none)
  match body.2 with
  | some exc => (head ++ body.1, some exc)
  | none =>
    (head ++ body.1 ++
      [enterEvent .info eqBar exploit_id,
       enterEvent .complete "[*] Module execution finished" exploit_id], none)

/-! ## `SeekEnterService.run_enter` (seek_enter_service.py lines 101-180) -/

/-- Model of `EnterRequest` (the `options` dict is never read by any module and
is omitted). -/
structure EnterRequest where
  scan_id : String
  target_ip : String
  port : Int
  service : String := ""
  exploit_id : String := "auto"
deriving DecidableEq

/-- Model of `EnterResult`. -/
structure EnterResult where
  session_id : String
  target_ip : String
  port : Int
  service : String := ""
  success : Bool := false
  method : String := ""
  access_level : String := ""
  loot : List String := []
deriving DecidableEq

/-- The per-event bookkeeping of `run_enter`: on each `success` event
set the success flag, derive the access level from the lowercased
message, and append the message to the loot.  State: (success,
access_level, loot). -/
def enterStep (st : Bool × String × List String) (e : EnterEvent) :
    Bool × String × List String :=
  match e.event_type with
  | .success =>
    let low := pyLower e.message
    let access :=
      if strContains low "root" then "root"
      else if strContains low "admin" then "admin"
      else "user"
    (true, access, st.2.2 ++ [e.message])
  | _ => st

/-- Model of `SeekEnterService.run_enter(request)`: the delivered event stream
and the stored `EnterResult` (`none` when selection failed and the run
aborted after a single `error` event).  The generated session id is a
parameter; the database writes emit no events and are omitted. -/
def run_enter (session_id : String) (req : EnterRequest) (w : EnterWorld) :
    List EnterEvent × Option EnterResult :=
  let exploit_id := select_exploit req.service req.port req.exploit_id
  if exploit_id = "" then
    ([enterEvent .error
      ("[!] No exploit module available for " ++ req.service ++ ":" ++ intStr req.port)],
     none)
  else
    let r := run_exploit req.target_ip req.port req.service exploit_id w
    let st := r.1.foldl enterStep (false, "none", [])
    let crashEvs :=
      match r.2 with
      | some exc => [enterEvent .error ("[!] Module crashed: " ++ exc)]
      | none => []
    (enterEvent .info ("[*] Session ID: " ++ session_id) ::
      enterEvent .info ("[*] Selected module: " ++ exploit_id) ::
      r.1 ++ crashEvs ++
      [enterEvent .complete
        ("[*] Result: " ++ (if st.1 then "SUCCESS" else "FAILED") ++
          " | Access: " ++ st.2.1 ++ " | Method: " ++ exploit_id)],
     some { session_id := session_id, target_ip := req.target_ip, port := req.port,
            service := req.service, success := st.1, method := exploit_id,
            access_level := st.2.1, loot := st.2.2 })


theorem countP_cons_of_false {p : EnterEvent → Bool} (e : EnterEvent) (l : List EnterEvent)
    (h : p e = false) : List.countP p (e :: l) = List.countP p l := by
  rw [List.countP_cons, h]
  simp

theorem sshProcLoop_counts (att : Nat → SshProcAttempt) :
    ∀ (creds : List (String × String)) (i : Nat),
      countComplete (sshProcLoop att i creds).1 = 0 ∧
        countError (sshProcLoop att i creds).1 = 0 := by
  intro creds
  induction creds with
  | nil => intro i; exact ⟨rfl, rfl⟩
  | cons c rest ih =>
    intro i
    obtain ⟨u, pw⟩ := c
    have h1 := (ih (i + 1)).1
    have h2 := (ih (i + 1)).2
    simp only [countComplete, countError] at h1 h2 ⊢
    simp only [sshProcLoop]
    cases att i with
    | done rc out =>
      dsimp only
      by_cases hok : rc = 0 ∧ out ≠ ""
      · rw [if_pos hok]
        exact ⟨rfl, rfl⟩
      · rw [if_neg hok]
        dsimp only
        rw [countP_cons_of_false _ _ rfl, countP_cons_of_false _ _ rfl]
        exact ⟨h1, h2⟩
    | raised =>
      dsimp only
      rw [countP_cons_of_false _ _ rfl, countP_cons_of_false _ _ rfl]
      exact ⟨h1, h2⟩

theorem sshLibLoop_counts (att : Nat → Option String) :
    ∀ (creds : List (String × String)) (i : Nat),
      countComplete (sshLibLoop att i creds).1 = 0 ∧
        countError (sshLibLoop att i creds).1 = 0 := by
  intro creds
  induction creds with
  | nil => intro i; exact ⟨rfl, rfl⟩
  | cons c rest ih =>
    intro i
    obtain ⟨u, pw⟩ := c
    have h1 := (ih (i + 1)).1
    have h2 := (ih (i + 1)).2
    simp only [countComplete, countError] at h1 h2 ⊢
    simp only [sshLibLoop]
    cases att i with
    | some out => exact ⟨rfl, rfl⟩
    | none =>
      dsimp only
      rw [countP_cons_of_false _ _ rfl, countP_cons_of_false _ _ rfl]
      exact ⟨h1, h2⟩

theorem sshEvents_counts (target : String) (port : Int) (w : SshWorld) :
    countComplete (sshEvents target port w) = 0 ∧
      countError (sshEvents target port w) ≤ 3 := by
  unfold sshEvents
  cases hav : w.asyncsshAvailable with
  | true =>
    have h1 := (sshLibLoop_counts w.libAttempt sshCreds 0).1
    have h2 := (sshLibLoop_counts w.libAttempt sshCreds 0).2
    simp only [countComplete, countError] at h1 h2 ⊢
    cases hsucc : (sshLibLoop w.libAttempt 0 sshCreds).2 <;>
      simp [List.countP_cons, List.countP_append, isComplete, isError, enterEvent,
        hsucc, h1, h2, List.countP_eq_zero.mp h1, List.countP_eq_zero.mp h2]
  | false =>
    cases hsp : w.sshpassPresent with
    | true =>
      have h1 := (sshProcLoop_counts w.procAttempt sshCreds 0).1
      have h2 := (sshProcLoop_counts w.procAttempt sshCreds 0).2
      simp only [countComplete, countError] at h1 h2 ⊢
      cases hsucc : (sshProcLoop w.procAttempt 0 sshCreds).2 <;>
        simp [List.countP_cons, List.countP_append, isComplete, isError, enterEvent,
          hsucc, h1, h2, List.countP_eq_zero.mp h1, List.countP_eq_zero.mp h2]
    | false =>
      cases hpl : w.plinkPresent with
      | true =>
        have h1 := (sshProcLoop_counts w.procAttempt sshCreds 0).1
        have h2 := (sshProcLoop_counts w.procAttempt sshCreds 0).2
        simp only [countComplete, countError] at h1 h2 ⊢
        cases hsucc : (sshProcLoop w.procAttempt 0 sshCreds).2 <;>
          simp [List.countP_cons, List.countP_append, isComplete, isError, enterEvent,
            hsucc, h1, h2, List.countP_eq_zero.mp h1, List.countP_eq_zero.mp h2]
      | false =>
        cases hb : w.fallbackBanner <;>
          simp [countComplete, countError, List.countP_cons, List.countP_append,
            isComplete, isError, enterEvent]

theorem ftpEvents_counts (w : FtpWorld) :
    countComplete (ftpEvents w) = 0 ∧ countError (ftpEvents w) ≤ 2 := by
  unfold ftpEvents
  dsimp only
  split_ifs <;>
    simp [countComplete, countError, List.countP_cons, isComplete, isError, enterEvent]

theorem httpBasicLoop_counts (res : Nat → Option Int) :
    ∀ (creds : List (String × String)) (i : Nat),
      countComplete (httpBasicLoop res i creds).1 = 0 ∧
        countError (httpBasicLoop res i creds).1 = 0 := by
  intro creds
  induction creds with
  | nil => intro i; exact ⟨rfl, rfl⟩
  | cons c rest ih =>
    intro i
    obtain ⟨u, pw⟩ := c
    have h1 := (ih (i + 1)).1
    have h2 := (ih (i + 1)).2
    simp only [countComplete, countError] at h1 h2 ⊢
    simp only [httpBasicLoop]
    cases res i with
    | none =>
      dsimp only
      rw [countP_cons_of_false _ _ rfl, countP_cons_of_false _ _ rfl]
      exact ⟨h1, h2⟩
    | some code =>
      dsimp only
      by_cases hok : code ≠ 401 ∧ code ≠ 403
      · rw [if_pos hok]
        exact ⟨rfl, rfl⟩
      · rw [if_neg hok]
        dsimp only
        rw [countP_cons_of_false _ _ rfl, countP_cons_of_false _ _ rfl]
        exact ⟨h1, h2⟩

theorem httpFormLoopCreds_counts (res : Nat → Option (Int × String)) (path : String) :
    ∀ (creds : List (String × String)) (j : Nat),
      countComplete (httpFormLoopCreds res path j creds).1 = 0 ∧
        countError (httpFormLoopCreds res path j creds).1 = 0 := by
  intro creds
  induction creds with
  | nil => intro j; exact ⟨rfl, rfl⟩
  | cons c rest ih =>
    intro j
    obtain ⟨u, pw⟩ := c
    have h1 := (ih (j + 1)).1
    have h2 := (ih (j + 1)).2
    simp only [countComplete, countError] at h1 h2 ⊢
    simp only [httpFormLoopCreds]
    cases res j with
    | none =>
      dsimp only
      rw [countP_cons_of_false _ _ rfl, countP_cons_of_false _ _ rfl]
      exact ⟨h1, h2⟩
    | some pr =>
      obtain ⟨code, location⟩ := pr
      dsimp only
      by_cases hcode : code = 302 ∨ code = 303
      · rw [if_pos hcode]
        by_cases hkw : (strContains (pyLower location) "dashboard" ||
            strContains (pyLower location) "admin" ||
            strContains (pyLower location) "home" ||
            strContains (pyLower location) "panel") = true
        · rw [if_pos hkw]
          exact ⟨rfl, rfl⟩
        · rw [if_neg hkw]
          dsimp only
          rw [countP_cons_of_false _ _ rfl, countP_cons_of_false _ _ rfl]
          exact ⟨h1, h2⟩
      · rw [if_neg hcode]
        dsimp only
        rw [countP_cons_of_false _ _ rfl, countP_cons_of_false _ _ rfl]
        exact ⟨h1, h2⟩

theorem httpFormLoopPaths_counts (res : Nat → Option (Int × String)) :
    ∀ (paths : List String) (j : Nat),
      countComplete (httpFormLoopPaths res j paths).1 = 0 ∧
        countError (httpFormLoopPaths res j paths).1 = 0 := by
  intro paths
  induction paths with
  | nil => intro j; exact ⟨rfl, rfl⟩
  | cons path rest ih =>
    intro j
    have hc := httpFormLoopCreds_counts res path (httpCreds.take 4) j
    have h1 := (ih (j + 4)).1
    have h2 := (ih (j + 4)).2
    simp only [countComplete, countError] at hc h1 h2 ⊢
    simp only [httpFormLoopPaths]
    by_cases hs : (httpFormLoopCreds res path j (httpCreds.take 4)).2 = true
    · rw [if_pos hs]
      exact ⟨hc.1, hc.2⟩
    · rw [if_neg hs]
      dsimp only
      rw [List.countP_append, List.countP_append]
      omega

theorem countP_map_zero {α : Type} (p : EnterEvent → Bool) (f : α → EnterEvent)
    (l : List α) (h : ∀ a, p (f a) = false) : List.countP p (l.map f) = 0 := by
  induction l with
  | nil => rfl
  | cons x xs ih =>
    rw [List.map_cons, countP_cons_of_false _ _ (h x)]
    exact ih

theorem httpEvents_counts (target : String) (port : Int) (service : String)
    (w : HttpWorld) :
    countComplete (httpEvents target port service w).1 = 0 ∧
      countError (httpEvents target port service w).1 ≤ 1 ∧
      ((httpEvents target port service w).2.isSome = true →
        countError (httpEvents target port service w).1 = 0) := by
  unfold httpEvents
  cases hav : w.httpxAvailable with
  | false => exact ⟨rfl, by simp [countError], fun _ => rfl⟩
  | true =>
    simp only [Bool.not_true, Bool.false_eq_true, if_false]
    cases hcl : w.clientOk with
    | false =>
      refine ⟨rfl, ?_, fun _ => rfl⟩
      simp [countError, List.countP_cons, isError, enterEvent]
    | true =>
      simp only [Bool.not_true, Bool.false_eq_true, if_false]
      have hb1 := (httpBasicLoop_counts w.basicResult httpCreds 0).1
      have hb2 := (httpBasicLoop_counts w.basicResult httpCreds 0).2
      have hf1 := (httpFormLoopPaths_counts w.formResult loginPaths 0).1
      have hf2 := (httpFormLoopPaths_counts w.formResult loginPaths 0).2
      simp only [countComplete, countError] at hb1 hb2 hf1 hf2 ⊢
      by_cases hs1 : (httpBasicLoop w.basicResult 0 httpCreds).2 = true
      · rw [if_pos hs1]
        refine ⟨?_, ?_, fun hcr => absurd hcr (by simp)⟩
        · rw [countP_cons_of_false _ _ rfl, countP_cons_of_false _ _ rfl]
          exact hb1
        · rw [countP_cons_of_false _ _ rfl, countP_cons_of_false _ _ rfl, hb2]
          omega
      · rw [if_neg hs1]
        by_cases hs2 : (httpFormLoopPaths w.formResult 0 loginPaths).2 = true
        · rw [if_pos hs2]
          refine ⟨?_, ?_, fun hcr => absurd hcr (by simp)⟩ <;>
            simp [List.countP_cons, List.countP_append, isComplete, isError, enterEvent,
              hb1, hb2, hf1, hf2, List.countP_eq_zero.mp hb1, List.countP_eq_zero.mp hb2,
              List.countP_eq_zero.mp hf1, List.countP_eq_zero.mp hf2]
        · rw [if_neg hs2]
          refine ⟨?_, ?_, fun hcr => absurd hcr (by simp)⟩ <;>
            simp [List.countP_cons, List.countP_append, isComplete, isError, enterEvent,
              hb1, hb2, hf1, hf2, List.countP_eq_zero.mp hb1, List.countP_eq_zero.mp hb2,
              List.countP_eq_zero.mp hf1, List.countP_eq_zero.mp hf2]

theorem smbEvents_counts (target : String) (port : Int) (w : SmbWorld) :
    countComplete (smbEvents target port w) = 0 ∧
      countError (smbEvents target port w) ≤ 1 := by
  unfold smbEvents
  cases hsc : w.smbclientPresent with
  | true =>
    simp only [eq_self_iff_true, if_true]
    cases hp : w.proc with
    | raised exc =>
      simp [countComplete, countError, List.countP_cons, isComplete, isError, enterEvent]
    | done out err =>
      have hm1 := countP_map_zero isComplete
        (fun line => enterEvent .output ("    " ++ line) "smb_null_session")
        (pySplitlines out) (fun a => rfl)
      have hm2 := countP_map_zero isError
        (fun line => enterEvent .output ("    " ++ line) "smb_null_session")
        (pySplitlines out) (fun a => rfl)
      constructor
      · simp only [countComplete]
        rw [countP_cons_of_false _ _ rfl, countP_cons_of_false _ _ rfl,
          List.countP_append, hm1]
        by_cases hsh : strContains out "Sharename" = true
        · rw [if_pos hsh]
          rfl
        · rw [if_neg hsh]
          rfl
      · simp only [countError]
        rw [countP_cons_of_false _ _ rfl, countP_cons_of_false _ _ rfl,
          List.countP_append, hm2]
        by_cases hsh : strContains out "Sharename" = true
        · rw [if_pos hsh]
          simp [List.countP_cons, isError, enterEvent]
        · rw [if_neg hsh]
          simp [List.countP_cons, isError, enterEvent]
  | false =>
    cases hf : w.fallback <;>
      simp [countComplete, countError, List.countP_cons, isComplete, isError, enterEvent]

theorem bannerEvents_counts (target : String) (port : Int) (w : BannerWorld) :
    countComplete (bannerEvents target port w) = 0 ∧
      countError (bannerEvents target port w) ≤ 1 := by
  unfold bannerEvents
  have hclose1 : List.countP isComplete (match w.closeExc with
      | some exc => [enterEvent .error ("[!] Connection failed: " ++ exc) "banner_grab"]
      | none => []) = 0 := by
    cases w.closeExc <;> rfl
  have hclose2 : List.countP isError (match w.closeExc with
      | some exc => [enterEvent .error ("[!] Connection failed: " ++ exc) "banner_grab"]
      | none => []) ≤ 1 := by
    cases w.closeExc <;> simp [List.countP_cons, isError, enterEvent]
  cases hc : w.connectExc with
  | some exc =>
    simp [countComplete, countError, List.countP_cons, isComplete, isError, enterEvent]
  | none =>
    dsimp only
    cases hr1 : w.read1 with
    | raised exc =>
      simp [countComplete, countError, List.countP_cons, isComplete, isError, enterEvent]
    | timedOut =>
      constructor
      · simp only [countComplete]
        rw [countP_cons_of_false _ _ rfl, countP_cons_of_false _ _ rfl]
        exact hclose1
      · simp only [countError]
        rw [countP_cons_of_false _ _ rfl, countP_cons_of_false _ _ rfl]
        exact hclose2
    | got b =>
      dsimp only
      by_cases hb : b = ""
      · rw [if_pos hb]
        cases hr2 : w.read2 with
        | raised exc =>
          simp [countComplete, countError, List.countP_cons, isComplete, isError, enterEvent]
        | timedOut =>
          constructor
          · simp only [countComplete]
            rw [countP_cons_of_false _ _ rfl, countP_cons_of_false _ _ rfl, hclose1]
          · simp only [countError]
            rw [countP_cons_of_false _ _ rfl, countP_cons_of_false _ _ rfl]
            exact hclose2
        | got r =>
          have hm1 := countP_map_zero isComplete
            (fun line => enterEvent .output ("    " ++ line) "banner_grab")
            ((pySplitlines r).take 20) (fun a => rfl)
          have hm2 := countP_map_zero isError
            (fun line => enterEvent .output ("    " ++ line) "banner_grab")
            ((pySplitlines r).take 20) (fun a => rfl)
          constructor
          · simp only [countComplete]
            rw [countP_cons_of_false _ _ rfl, List.countP_append, hm1,
              countP_cons_of_false _ _ rfl, hclose1]
          · simp only [countError]
            rw [countP_cons_of_false _ _ rfl, List.countP_append, hm2,
              countP_cons_of_false _ _ rfl]
            simpa using hclose2
      · rw [if_neg hb]
        have hm1 := countP_map_zero isComplete
          (fun line => enterEvent .output ("    " ++ line) "banner_grab")
          (pySplitlines b) (fun a => rfl)
        have hm2 := countP_map_zero isError
          (fun line => enterEvent .output ("    " ++ line) "banner_grab")
          (pySplitlines b) (fun a => rfl)
        constructor
        · simp only [countComplete]
          rw [countP_cons_of_false _ _ rfl, List.countP_append, hm1,
            countP_cons_of_false _ _ rfl, hclose1]
        · simp only [countError]
          rw [countP_cons_of_false _ _ rfl, List.countP_append, hm2,
            countP_cons_of_false _ _ rfl]
          simpa using hclose2

theorem wrap_counts (m1 m2 m3 m4 mc mod : String) (body : List EnterEvent)
    (hc : countComplete body = 0) (he : countError body ≤ 3) :
    countComplete ([enterEvent .info m1 mod, enterEvent .info m2 mod,
        enterEvent .info m3 mod] ++ body ++
        [enterEvent .info m4 mod, enterEvent .complete mc mod]) = 1 ∧
      (([enterEvent .info m1 mod, enterEvent .info m2 mod,
        enterEvent .info m3 mod] ++ body ++
        [enterEvent .info m4 mod, enterEvent .complete mc mod]).getLast?).map isComplete =
        some true ∧
      countError ([enterEvent .info m1 mod, enterEvent .info m2 mod,
        enterEvent .info m3 mod] ++ body ++
        [enterEvent .info m4 mod, enterEvent .complete mc mod]) ≤ 3 := by
  simp only [countComplete, countError] at hc he ⊢
  refine ⟨?_, ?_, ?_⟩
  · rw [List.countP_append, List.countP_append, hc]
    rfl
  · rw [List.append_assoc]
    rw [List.getLast?_append_of_ne_nil _ (by simp)]
    rw [List.getLast?_append_of_ne_nil _ (by simp)]
    rfl
  · rw [List.countP_append, List.countP_append]
    have h34 : List.countP isError
        [enterEvent .info m4 mod, enterEvent .complete mc mod] = 0 := rfl
    have h123 : List.countP isError
        [enterEvent .info m1 mod, enterEvent .info m2 mod, enterEvent .info m3 mod] = 0 := rfl
    omega

theorem run_exploit_counts (target : String) (port : Int) (service : String)
    (eid : String) (w : EnterWorld) :
    countComplete (run_exploit target port service eid w).1 =
        (if (run_exploit target port service eid w).2.isSome then 0 else 1) ∧
      ((run_exploit target port service eid w).2 = none →
        ((run_exploit target port service eid w).1.getLast?).map isComplete = some true) ∧
      countError (run_exploit target port service eid w).1 +
        (if (run_exploit target port service eid w).2.isSome then 1 else 0) ≤ 3 := by
  by_cases h1 : eid = "ssh_bruteforce"
  · have hrun : run_exploit target port service eid w =
        ([enterEvent .info ("[*] Initializing module: " ++ registryName eid) eid,
          enterEvent .info ("[*] Target: " ++ target ++ ":" ++ intStr port ++ " (" ++ service ++ ")") eid,
          enterEvent .info eqBar eid] ++ sshEvents target port w.ssh ++
          [enterEvent .info eqBar eid, enterEvent .complete "[*] Module execution finished" eid],
         none) := by
      unfold run_exploit
      rw [if_pos h1]
    rw [hrun]
    have hw := wrap_counts ("[*] Initializing module: " ++ registryName eid)
      ("[*] Target: " ++ target ++ ":" ++ intStr port ++ " (" ++ service ++ ")")
      eqBar eqBar "[*] Module execution finished" eid (sshEvents target port w.ssh)
      (sshEvents_counts target port w.ssh).1
      (sshEvents_counts target port w.ssh).2
    exact ⟨hw.1, fun _ => hw.2.1, by simpa using hw.2.2⟩
  by_cases h2 : eid = "ftp_anonymous"
  · have hrun : run_exploit target port service eid w =
        ([enterEvent .info ("[*] Initializing module: " ++ registryName eid) eid,
          enterEvent .info ("[*] Target: " ++ target ++ ":" ++ intStr port ++ " (" ++ service ++ ")") eid,
          enterEvent .info eqBar eid] ++ ftpEvents w.ftp ++
          [enterEvent .info eqBar eid, enterEvent .complete "[*] Module execution finished" eid],
         none) := by
      unfold run_exploit
      rw [if_neg h1, if_pos h2]
    rw [hrun]
    have hw := wrap_counts ("[*] Initializing module: " ++ registryName eid)
      ("[*] Target: " ++ target ++ ":" ++ intStr port ++ " (" ++ service ++ ")")
      eqBar eqBar "[*] Module execution finished" eid (ftpEvents w.ftp)
      (ftpEvents_counts w.ftp).1
      (le_trans (ftpEvents_counts w.ftp).2 (by omega))
    exact ⟨hw.1, fun _ => hw.2.1, by simpa using hw.2.2⟩
  by_cases h3 : eid = "http_default_creds"
  · have hcnt := httpEvents_counts target port service w.http
    rcases hhttp : httpEvents target port service w.http with ⟨bevs, bcrash⟩
    rw [hhttp] at hcnt
    dsimp only at hcnt
    cases bcrash with
    | none =>
      have hrun : run_exploit target port service eid w =
          ([enterEvent .info ("[*] Initializing module: " ++ registryName eid) eid,
            enterEvent .info ("[*] Target: " ++ target ++ ":" ++ intStr port ++ " (" ++ service ++ ")") eid,
            enterEvent .info eqBar eid] ++ bevs ++
            [enterEvent .info eqBar eid, enterEvent .complete "[*] Module execution finished" eid],
           none) := by
        unfold run_exploit
        rw [if_neg h1, if_neg h2, if_pos h3, hhttp]
      rw [hrun]
      have hw := wrap_counts ("[*] Initializing module: " ++ registryName eid)
        ("[*] Target: " ++ target ++ ":" ++ intStr port ++ " (" ++ service ++ ")")
        eqBar eqBar "[*] Module execution finished" eid bevs
        hcnt.1 (le_trans hcnt.2.1 (by omega))
      exact ⟨hw.1, fun _ => hw.2.1, by simpa using hw.2.2⟩
    | some exc =>
      have hrun : run_exploit target port service eid w =
          ([enterEvent .info ("[*] Initializing module: " ++ registryName eid) eid,
            enterEvent .info ("[*] Target: " ++ target ++ ":" ++ intStr port ++ " (" ++ service ++ ")") eid,
            enterEvent .info eqBar eid] ++ bevs, some exc) := by
        unfold run_exploit
        rw [if_neg h1, if_neg h2, if_pos h3, hhttp]
      rw [hrun]
      have herr0 : countError bevs = 0 := hcnt.2.2 rfl
      refine ⟨?_, fun hco => absurd hco (by simp), ?_⟩
      · simp only [countComplete, countError] at hcnt ⊢
        rw [List.countP_append, hcnt.1]
        rfl
      · simp only [countComplete, countError] at herr0 ⊢
        rw [List.countP_append, herr0]
        have hh : List.countP isError
            [enterEvent .info ("[*] Initializing module: " ++ registryName eid) eid,
             enterEvent .info ("[*] Target: " ++ target ++ ":" ++ intStr port ++
               " (" ++ service ++ ")") eid,
             enterEvent .info eqBar eid] = 0 := rfl
        rw [hh]
        simp
  by_cases h4 : eid = "smb_null_session"
  · have hrun : run_exploit target port service eid w =
        ([enterEvent .info ("[*] Initializing module: " ++ registryName eid) eid,
          enterEvent .info ("[*] Target: " ++ target ++ ":" ++ intStr port ++ " (" ++ service ++ ")") eid,
          enterEvent .info eqBar eid] ++ smbEvents target port w.smb ++
          [enterEvent .info eqBar eid, enterEvent .complete "[*] Module execution finished" eid],
         none) := by
      unfold run_exploit
      rw [if_neg h1, if_neg h2, if_neg h3, if_pos h4]
    rw [hrun]
    have hw := wrap_counts ("[*] Initializing module: " ++ registryName eid)
      ("[*] Target: " ++ target ++ ":" ++ intStr port ++ " (" ++ service ++ ")")
      eqBar eqBar "[*] Module execution finished" eid (smbEvents target port w.smb)
      (smbEvents_counts target port w.smb).1
      (le_trans (smbEvents_counts target port w.smb).2 (by omega))
    exact ⟨hw.1, fun _ => hw.2.1, by simpa using hw.2.2⟩
  by_cases h5 : eid = "banner_grab"
  · have hrun : run_exploit target port service eid w =
        ([enterEvent .info ("[*] Initializing module: " ++ registryName eid) eid,
          enterEvent .info ("[*] Target: " ++ target ++ ":" ++ intStr port ++ " (" ++ service ++ ")") eid,
          enterEvent .info eqBar eid] ++ bannerEvents target port w.banner ++
          [enterEvent .info eqBar eid, enterEvent .complete "[*] Module execution finished" eid],
         none) := by
      unfold run_exploit
      rw [if_neg h1, if_neg h2, if_neg h3, if_neg h4, if_pos h5]
    rw [hrun]
    have hw := wrap_counts ("[*] Initializing module: " ++ registryName eid)
      ("[*] Target: " ++ target ++ ":" ++ intStr port ++ " (" ++ service ++ ")")
      eqBar eqBar "[*] Module execution finished" eid (bannerEvents target port w.banner)
      (bannerEvents_counts target port w.banner).1
      (le_trans (bannerEvents_counts target port w.banner).2 (by omega))
    exact ⟨hw.1, fun _ => hw.2.1, by simpa using hw.2.2⟩
  · have hrun : run_exploit target port service eid w =
        ([enterEvent .info ("[*] Initializing module: " ++ registryName eid) eid,
          enterEvent .info ("[*] Target: " ++ target ++ ":" ++ intStr port ++ " (" ++ service ++ ")") eid,
          enterEvent .info eqBar eid] ++
          [enterEvent .error ("[!] Unknown exploit module: " ++ eid) eid] ++
          [enterEvent .info eqBar eid, enterEvent .complete "[*] Module execution finished" eid],
         none) := by
      unfold run_exploit
      rw [if_neg h1, if_neg h2, if_neg h3, if_neg h4, if_neg h5]
    rw [hrun]
    have hw := wrap_counts ("[*] Initializing module: " ++ registryName eid)
      ("[*] Target: " ++ target ++ ":" ++ intStr port ++ " (" ++ service ++ ")")
      eqBar eqBar "[*] Module execution finished" eid
      [enterEvent .error ("[!] Unknown exploit module: " ++ eid) eid]
      rfl (by simp [countError, List.countP_cons, isError, enterEvent])
    exact ⟨hw.1, fun _ => hw.2.1, by simpa using hw.2.2⟩

theorem countP_isError_complete (msg md : String) :
    List.countP isError [enterEvent .complete msg md] = 0 := rfl

theorem countP_isError_error (msg md : String) :
    List.countP isError [enterEvent .error msg md] = 1 := rfl

/-! ## C1, C2 claims -/

/-- C1 (amended): every `run_enter` stream that reaches a module ends
with a `complete` event, but the claim "exactly one `complete`" is
false: `run_enter` re-yields the `complete` event of `run_exploit` and
then appends its own summary `complete`, so a run whose module generator
finishes normally delivers exactly two `complete` events (one when the
module crashes mid-stream, since the module's own `complete` is then
never reached); a run whose explicit module id is unknown aborts after a
single `error` event and delivers no `complete` at all. -/
theorem c1_enter_stream_completes (sid : String) (req : EnterRequest) (w : EnterWorld) :
    if select_exploit req.service req.port req.exploit_id = "" then
      countComplete (run_enter sid req w).1 = 0
    else
      countComplete (run_enter sid req w).1 =
          (if (run_exploit req.target_ip req.port req.service
              (select_exploit req.service req.port req.exploit_id) w).2.isSome
           then 1 else 2) ∧
        ((run_enter sid req w).1.getLast?).map isComplete = some true := by
  by_cases hsel : select_exploit req.service req.port req.exploit_id = ""
  · rw [if_pos hsel]
    have hrun : run_enter sid req w =
        ([enterEvent .error ("[!] No exploit module available for " ++ req.service ++
          ":" ++ intStr req.port)], none) := by
      unfold run_enter
      rw [if_pos hsel]
    rw [hrun]
    rfl
  · rw [if_neg hsel]
    rcases hre : run_exploit req.target_ip req.port req.service
        (select_exploit req.service req.port req.exploit_id) w with ⟨mevs, mcrash⟩
    have hcounts := run_exploit_counts req.target_ip req.port req.service
      (select_exploit req.service req.port req.exploit_id) w
    rw [hre] at hcounts
    unfold run_enter
    rw [if_neg hsel, hre]
    dsimp only at hcounts ⊢
    cases mcrash with
    | none =>
      simp only [Option.isSome_none, Bool.false_eq_true, if_false] at hcounts ⊢
      constructor
      · simp only [countComplete] at hcounts ⊢
        rw [List.append_nil, List.countP_append,
          countP_cons_of_false _ _ rfl, countP_cons_of_false _ _ rfl, hcounts.1]
        rfl
      · rw [List.getLast?_concat]
        rfl
    | some exc =>
      simp only [Option.isSome_some, if_true] at hcounts ⊢
      constructor
      · simp only [countComplete] at hcounts ⊢
        rw [List.countP_append, List.countP_append,
          countP_cons_of_false _ _ rfl, countP_cons_of_false _ _ rfl, hcounts.1]
        rfl
      · rw [List.getLast?_concat]
        rfl

/-- C2 (amended): an Enter run in which no `success` event is emitted
delivers at most three (not at most one) events of kind `error`: the
ssh no-tool fallback emits two or three (connection-failure, no-tool
notice, no-valid-credentials), the ftp module can emit two (rejected
login plus a teardown failure), and every other module path at most
one. -/
theorem c2_enter_error_bound (sid : String) (req : EnterRequest) (w : EnterWorld)
    (hns : hasSuccess (run_enter sid req w).1 = false) :
    countError (run_enter sid req w).1 ≤ 3 := by
  clear hns
  by_cases hsel : select_exploit req.service req.port req.exploit_id = ""
  · have hrun : run_enter sid req w =
        ([enterEvent .error ("[!] No exploit module available for " ++ req.service ++
          ":" ++ intStr req.port)], none) := by
      unfold run_enter
      rw [if_pos hsel]
    rw [hrun]
    simp [countError, List.countP_cons, isError, enterEvent]
  · rcases hre : run_exploit req.target_ip req.port req.service
        (select_exploit req.service req.port req.exploit_id) w with ⟨mevs, mcrash⟩
    have hcounts := run_exploit_counts req.target_ip req.port req.service
      (select_exploit req.service req.port req.exploit_id) w
    rw [hre] at hcounts
    unfold run_enter
    rw [if_neg hsel, hre]
    dsimp only at hcounts ⊢
    cases mcrash with
    | none =>
      simp only [Option.isSome_none, Bool.false_eq_true, if_false] at hcounts
      have hb : List.countP isError mevs ≤ 3 := by
        have h := hcounts.2.2
        simp only [countError] at h
        omega
      simp only [countError]
      rw [List.append_nil, List.countP_append,
        countP_cons_of_false _ _ rfl, countP_cons_of_false _ _ rfl,
        countP_isError_complete]
      omega
    | some exc =>
      simp only [Option.isSome_some, if_true] at hcounts
      have hb : List.countP isError mevs + 1 ≤ 3 := by
        have h := hcounts.2.2
        simp only [countError] at h
        omega
      simp only [countError]
      rw [List.countP_append, List.countP_append,
        countP_cons_of_false _ _ rfl, countP_cons_of_false _ _ rfl,
        countP_isError_complete, countP_isError_error]
      omega

/-! ## Concrete worlds for the counterexamples and witnesses -/

/-- ssh world with no asyncssh, no sshpass, no plink, and a failing
fallback connection. -/
def sshWorldNoTools : SshWorld :=
  { asyncsshAvailable := false, sshpassPresent := false, plinkPresent := false,
    libAttempt := fun _ => none, procAttempt := fun _ => SshProcAttempt.raised,
    fallbackBanner := none }

/-- FTP server that accepts the anonymous login (`230` reply). -/
def ftpWorldOk : FtpWorld :=
  { banner := "220 srv ready", userResp := "331 need password",
    passResp := "230 Login successful.", pwdResp := "257 root dir",
    failIdx := none, excMsg := "" }

/-- http world where every request is rejected with 401. -/
def httpWorldIdle : HttpWorld :=
  { httpxAvailable := true, importExcMsg := "", clientOk := true, clientExcMsg := "",
    basicResult := fun _ => some 401, formResult := fun _ => none }

/-- smb world without smbclient and with a reachable port. -/
def smbWorldIdle : SmbWorld :=
  { smbclientPresent := false, proc := SmbProc.raised "", fallback := SmbFallback.okClosed }

/-- banner world where the connection is refused. -/
def bannerWorldIdle : BannerWorld :=
  { connectExc := some "refused", read1 := ReadOutcome.timedOut,
    read2 := ReadOutcome.timedOut, closeExc := none }

/-- A concrete Enter world combining the module worlds above. -/
def demoWorld : EnterWorld :=
  { ssh := sshWorldNoTools, ftp := ftpWorldOk, http := httpWorldIdle,
    smb := smbWorldIdle, banner := bannerWorldIdle }

/-- Auto-selected FTP request on port 21. -/
def reqFtpAuto : EnterRequest :=
  { scan_id := "scan1", target_ip := "10.0.0.7", port := 21, service := "ftp",
    exploit_id := "auto" }

/-- Request naming a module id that is not in the registry. -/
def reqUnknown : EnterRequest :=
  { scan_id := "scan1", target_ip := "10.0.0.7", port := 22, service := "ssh",
    exploit_id := "nosuch" }

/-- Explicit ssh_bruteforce request. -/
def reqSshExplicit : EnterRequest :=
  { scan_id := "scan1", target_ip := "10.0.0.7", port := 22, service := "ssh",
    exploit_id := "ssh_bruteforce" }

/-- C1, counterexample: a successful auto-selected FTP run delivers two
`complete` events (`run_exploit`'s "Module execution finished" and
`run_enter`'s summary), not exactly one — and a run with an unknown
explicit module id delivers none. -/
theorem c1_counterexample :
    countComplete (run_enter "sid0" reqFtpAuto demoWorld).1 = 2 ∧
      (((run_enter "sid0" reqFtpAuto demoWorld).1.getLast?).map isComplete = some true) ∧
      countComplete (run_enter "sid0" reqUnknown demoWorld).1 = 0 := by
  decide

/-- C2, counterexample: an ssh_bruteforce run with no asyncssh, no
sshpass and no plink, whose fallback connection also fails, emits no
`success` event and exactly three `error` events — more than the one
the claim allows. -/
theorem c2_counterexample :
    hasSuccess (run_enter "sid0" reqSshExplicit demoWorld).1 = false ∧
      countError (run_enter "sid0" reqSshExplicit demoWorld).1 = 3 ∧
      ¬ (countError (run_enter "sid0" reqSshExplicit demoWorld).1 ≤ 1) := by
  decide

/-- C2 witness: `c2_enter_error_bound` on the concrete no-tools ssh
run. -/
theorem c2_enter_error_bound_witness :
    countError (run_enter "sid0" reqSshExplicit demoWorld).1 ≤ 3 :=
  c2_enter_error_bound "sid0" reqSshExplicit demoWorld (by decide)

/-- C9 (amended): an Enter request on port 21 with service `"ftp"` and
`moduleId="auto"` selects `ftp_anonymous`; when the server answers the
anonymous PASS with a reply starting `"230"` (and no socket operation
fails), the stored `EnterResult` has `success = true` with
`access_level = "user"` — not the field's default `""`: `run_enter`
derives `"user"` from the success message, which mentions neither root
nor admin — and the stream contains a `success` event whose message is
"[+] Anonymous FTP login SUCCESSFUL". -/
theorem c9_ftp_scenario (sid scanid tip : String) (b u p q e : String)
    (wssh : SshWorld) (whttp : HttpWorld) (wsmb : SmbWorld) (wban : BannerWorld)
    (hp230 : pyStartsWith (pyStripStr p) "230" = true) :
    select_exploit "ftp" 21 "auto" = "ftp_anonymous" ∧
      (run_enter sid
          { scan_id := scanid, target_ip := tip, port := 21, service := "ftp",
            exploit_id := "auto" }
          { ssh := wssh,
            ftp := { banner := b, userResp := u, passResp := p, pwdResp := q,
                        failIdx := none, excMsg := e },
            http := whttp, smb := wsmb, banner := wban }).2 =
        some { session_id := sid, target_ip := tip, port := 21, service := "ftp",
               success := true, method := "ftp_anonymous", access_level := "user",
               loot := ["[+] Anonymous FTP login SUCCESSFUL"] } ∧
      ∃ ev ∈ (run_enter sid
          { scan_id := scanid, target_ip := tip, port := 21, service := "ftp",
            exploit_id := "auto" }
          { ssh := wssh,
            ftp := { banner := b, userResp := u, passResp := p, pwdResp := q,
                        failIdx := none, excMsg := e },
            http := whttp, smb := wsmb, banner := wban }).1,
        isSuccess ev = true ∧ ev.message = "[+] Anonymous FTP login SUCCESSFUL" := by
  have hsel : select_exploit "ftp" 21 "auto" = "ftp_anonymous" := by decide
  have hftp : ftpEvents { banner := b, userResp := u, passResp := p, pwdResp := q,
                          failIdx := none, excMsg := e } =
      [enterEvent .command "[>] Checking for anonymous FTP access" "ftp_anonymous",
       enterEvent .output ("    Banner: " ++ pyStripStr b) "ftp_anonymous",
       enterEvent .output ("    USER: " ++ pyStripStr u) "ftp_anonymous",
       enterEvent .output ("    PASS: " ++ pyStripStr p) "ftp_anonymous",
       enterEvent .success "[+] Anonymous FTP login SUCCESSFUL" "ftp_anonymous",
       enterEvent .output ("    PWD: " ++ pyStripStr q) "ftp_anonymous"] := by
    unfold ftpEvents ftpFailsAt
    rw [hp230]
    rfl
  have hstream : (run_enter sid
      { scan_id := scanid, target_ip := tip, port := 21, service := "ftp",
        exploit_id := "auto" }
      { ssh := wssh,
        ftp := { banner := b, userResp := u, passResp := p, pwdResp := q,
                    failIdx := none, excMsg := e },
        http := whttp, smb := wsmb, banner := wban }).1 =
      [enterEvent .info ("[*] Session ID: " ++ sid),
       enterEvent .info "[*] Selected module: ftp_anonymous",
       enterEvent .info "[*] Initializing module: FTP Anonymous Access" "ftp_anonymous",
       enterEvent .info ("[*] Target: " ++ tip ++ ":" ++ intStr 21 ++ " (" ++ "ftp" ++ ")")
         "ftp_anonymous",
       enterEvent .info eqBar "ftp_anonymous",
       enterEvent .command "[>] Checking for anonymous FTP access" "ftp_anonymous",
       enterEvent .output ("    Banner: " ++ pyStripStr b) "ftp_anonymous",
       enterEvent .output ("    USER: " ++ pyStripStr u) "ftp_anonymous",
       enterEvent .output ("    PASS: " ++ pyStripStr p) "ftp_anonymous",
       enterEvent .success "[+] Anonymous FTP login SUCCESSFUL" "ftp_anonymous",
       enterEvent .output ("    PWD: " ++ pyStripStr q) "ftp_anonymous",
       enterEvent .info eqBar "ftp_anonymous",
       enterEvent .complete "[*] Module execution finished" "ftp_anonymous",
       enterEvent .complete "[*] Result: SUCCESS | Access: user | Method: ftp_anonymous"] := by
    unfold run_enter run_exploit
    dsimp only
    rw [hftp]
    rfl
  have hres : (run_enter sid
      { scan_id := scanid, target_ip := tip, port := 21, service := "ftp",
        exploit_id := "auto" }
      { ssh := wssh,
        ftp := { banner := b, userResp := u, passResp := p, pwdResp := q,
                    failIdx := none, excMsg := e },
        http := whttp, smb := wsmb, banner := wban }).2 =
      some { session_id := sid, target_ip := tip, port := 21, service := "ftp",
             success := true, method := "ftp_anonymous", access_level := "user",
             loot := ["[+] Anonymous FTP login SUCCESSFUL"] } := by
    unfold run_enter run_exploit
    dsimp only
    rw [hftp]
    rfl
  refine ⟨hsel, hres, ?_⟩
  rw [hstream]
  exact ⟨enterEvent .success "[+] Anonymous FTP login SUCCESSFUL" "ftp_anonymous",
    by simp, rfl, rfl⟩

/-- C9, counterexample: in the successful anonymous-FTP scenario the
stored `access_level` is `"user"`, while the `EnterResult` field default
is `""` — the claim that the access level is left at its default is
false. -/
theorem c9_counterexample :
    ((run_enter "sid0" reqFtpAuto demoWorld).2.map (fun r => r.access_level)) = some "user" ∧
      ({ session_id := "x", target_ip := "t", port := 1 } : EnterResult).access_level = "" ∧
      ("user" : String) ≠ "" := by
  decide

/-- C9 witness: `c9_ftp_scenario` at a fully concrete server
conversation. -/
theorem c9_ftp_scenario_witness :
    select_exploit "ftp" 21 "auto" = "ftp_anonymous" ∧
      (run_enter "sid0"
          { scan_id := "scan1", target_ip := "10.0.0.7", port := 21, service := "ftp",
            exploit_id := "auto" }
          { ssh := sshWorldNoTools,
            ftp := { banner := "220 srv ready", userResp := "331 need password",
                        passResp := "230 Login successful.", pwdResp := "257 root dir",
                        failIdx := none, excMsg := "" },
            http := httpWorldIdle, smb := smbWorldIdle, banner := bannerWorldIdle }).2 =
        some { session_id := "sid0", target_ip := "10.0.0.7", port := 21, service := "ftp",
               success := true, method := "ftp_anonymous", access_level := "user",
               loot := ["[+] Anonymous FTP login SUCCESSFUL"] } ∧
      ∃ ev ∈ (run_enter "sid0"
          { scan_id := "scan1", target_ip := "10.0.0.7", port := 21, service := "ftp",
            exploit_id := "auto" }
          { ssh := sshWorldNoTools,
            ftp := { banner := "220 srv ready", userResp := "331 need password",
                        passResp := "230 Login successful.", pwdResp := "257 root dir",
                        failIdx := none, excMsg := "" },
            http := httpWorldIdle, smb := smbWorldIdle, banner := bannerWorldIdle }).1,
        isSuccess ev = true ∧ ev.message = "[+] Anonymous FTP login SUCCESSFUL" :=
  c9_ftp_scenario "sid0" "scan1" "10.0.0.7" "220 srv ready" "331 need password"
    "230 Login successful." "257 root dir" "" sshWorldNoTools httpWorldIdle smbWorldIdle
    bannerWorldIdle (by decide)
